import Mathlib

/-!
Verification of the static-site generator `generate.py` (wasp-removal-service).

The program is a pure string-building pipeline: a fixed configuration and a
list of city/state pairs are interpolated into fixed HTML templates, and the
resulting documents, a robots file and a sitemap are written to disk.  This
file shallowly embeds every string-producing function of the source
(`esc`, `slugify`, `clamp_title`, the template builders, `sitemap_xml`, the
page factory `make_page` and the drivers) as executable Lean definitions over
`String` / `List Char`, plus a small event-trace model of `main`'s filesystem
behaviour, and proves the specification's claims about them.

Python-to-Lean conventions used throughout:
* Python `str` becomes `String`; character-level work happens on `.data`
  (`List Char`), matching Python's per-code-point semantics of `len`,
  slicing and `re` on `str`.
* `str.strip()` / `str.rstrip()` strip the characters of
  `Char.isWhitespace` (space, tab, CR, LF) — the whitespace actually
  occurring in this program.
* `str.lower()` is `Char.toLower` per character (ASCII case folding; every
  character class decision made by `slugify` after lowering is unchanged by
  this choice, since any non-ASCII letter is collapsed to `-` either way).
* Python ints that can go negative in principle (the `max_chars` parameter
  of `clamp_title`, sliced with `title[: max_chars - 1]`) are embedded as
  `Int` with Python's negative-slice semantics made explicit.
-/

set_option maxRecDepth 100000

/-! ## Basic character/list helpers used by the embedding -/

/-- Characters allowed by the slug character class `[a-z0-9]`. -/
def isSlugChar (c : Char) : Bool :=
  ('a' ≤ c && c ≤ 'z') || ('0' ≤ c && c ≤ '9')

/-- Strip the characters satisfying `p` from both ends of a list
(the semantics of Python's `str.strip`). -/
def stripWhile (p : Char → Bool) (l : List Char) : List Char :=
  ((l.dropWhile p).reverse.dropWhile p).reverse

/-- Drop the characters satisfying `p` from the right end only
(Python's `str.rstrip`). -/
def rstripL (l : List Char) : List Char :=
  (l.reverse.dropWhile Char.isWhitespace).reverse

/-- Python `str.rstrip()` lifted to `String`. -/
def rstripS (s : String) : String := String.mk (rstripL s.data)

/-- Python slice `l[:k]` where `k` may be negative (`l[:-1]` drops the last
element); used by `clamp_title`. -/
def pySliceTo (l : List Char) (k : Int) : List Char :=
  if k < 0 then l.take ((l.length : Int) + k).toNat else l.take k.toNat

/-! ## HELPERS section of `generate.py` -/

/-- One step of `html.escape(s, quote=True)`: the per-character substitution
it performs (`&` first, then `<`, `>`, `"`, `'`; the sequential `str.replace`
calls of CPython's `html.escape` amount to exactly this character map). -/
def escChar (c : Char) : List Char :=
  if c = '&' then "&amp;".data
  else if c = '<' then "&lt;".data
  else if c = '>' then "&gt;".data
  else if c = '"' then "&quot;".data
  else if c = Char.ofNat 39 then "&#x27;".data
  else [c]

/-- The helper `esc(s) = html.escape(s, quote=True)`. -/
def esc (s : String) : String := String.mk (s.data.flatMap escChar)

/-- Replace every `&` by `" and "`: the effect of `re.sub(r"&", " and ", s)`. -/
def replaceAmp : List Char → List Char
  | [] => []
  | c :: r => (if c = '&' then " and ".data else [c]) ++ replaceAmp r

/-- Collapse every run of two or more hyphens to a single hyphen: the effect
of `re.sub(r"-{2,}", "-", s)` (a lone hyphen is left alone). -/
def squeezeHyphens : List Char → List Char
  | [] => []
  | [c] => [c]
  | c :: d :: r =>
    if c = '-' && d = '-' then squeezeHyphens (d :: r)
    else c :: squeezeHyphens (d :: r)

/-- The effect of `re.sub(r"[^a-z0-9]+", "-", s)`: a maximal run of
characters outside `[a-z0-9]` becomes one hyphen.  Replacing each such
character by `-` and then collapsing hyphen runs yields exactly that (runs
of bad characters become runs of hyphens, each collapsed to one; `-` itself
is outside `[a-z0-9]`, so pre-existing hyphens take part in runs just as in
the regex). -/
def subNonAlnum (l : List Char) : List Char :=
  squeezeHyphens (l.map (fun c => if isSlugChar c then c else '-'))

/-- The function `slugify` from `generate.py`:
```python
def slugify(s):
    s = s.strip().lower()
    s = re.sub(r"&", " and ", s)
    s = re.sub(r"[^a-z0-9]+", "-", s)
    s = re.sub(r"-{2,}", "-", s).strip("-")
    return s
``` -/
def slugify (s : String) : String :=
  let l1 := stripWhile Char.isWhitespace s.data
  let l2 := l1.map Char.toLower
  let l3 := replaceAmp l2
  let l4 := subNonAlnum l3
  let l5 := squeezeHyphens l4
  String.mk (stripWhile (fun c => c = '-') l5)

/-- The helper `city_state_slug(city, state) = f"{slugify(city)}-{slugify(state)}"`. -/
def city_state_slug (city state : String) : String :=
  slugify city ++ "-" ++ slugify state

/-- The function `clamp_title` from `generate.py`:
```python
def clamp_title(title, max_chars=70):
    if len(title) <= max_chars:
        return title
    return title[: max_chars - 1].rstrip() + "…"
```
`max_chars` is an `Int`, and the slice keeps Python's negative-index
semantics (relevant only when `max_chars < 1`). -/
def clamp_title (title : String) (max_chars : Int := 70) : String :=
  if (title.length : Int) ≤ max_chars then title
  else String.mk (rstripL (pySliceTo title.data (max_chars - 1))) ++ "…"

/-- The helper `city_h1(service, city, state) = clamp_title(f"{service} in {city}, {state}", 70)`. -/
def city_h1 (service city state : String) : String :=
  clamp_title (service ++ " in " ++ city ++ ", " ++ state) 70

/-! ## Facts about the slug pipeline (claim C3) -/

/-- Does the list contain two adjacent hyphens? -/
def hasDoubleHyphen : List Char → Bool
  | [] => false
  | [_] => false
  | c :: d :: r => (c = '-' && d = '-') || hasDoubleHyphen (d :: r)

theorem hasDoubleHyphen_tail {c : Char} {r : List Char}
    (h : hasDoubleHyphen (c :: r) = false) : hasDoubleHyphen r = false := by
  cases r with
  | nil => rfl
  | cons d t =>
    rw [hasDoubleHyphen] at h
    exact (Bool.or_eq_false_iff.mp h).2

/-- Lemma relating `hasDoubleHyphen` to a `Chain'` statement. -/
theorem hasDoubleHyphen_eq_false_iff_chain' :
    ∀ l : List Char,
      hasDoubleHyphen l = false ↔ l.Chain' (fun a b => ¬(a = '-' ∧ b = '-'))
  | [] => by simp [hasDoubleHyphen]
  | [c] => by simp [hasDoubleHyphen]
  | c :: d :: r => by
    rw [hasDoubleHyphen, List.chain'_cons, ← hasDoubleHyphen_eq_false_iff_chain' (d :: r)]
    simp [Bool.or_eq_false_iff, and_comm, Decidable.not_and_iff_or_not]

theorem hasDoubleHyphen_reverse_false {l : List Char}
    (h : hasDoubleHyphen l = false) : hasDoubleHyphen l.reverse = false := by
  rw [hasDoubleHyphen_eq_false_iff_chain'] at h ⊢
  rw [List.chain'_reverse]
  exact h.imp fun a b hab h2 => hab ⟨h2.2, h2.1⟩

theorem hasDoubleHyphen_suffix {l₁ l₂ : List Char} (hs : l₁ <:+ l₂)
    (h : hasDoubleHyphen l₂ = false) : hasDoubleHyphen l₁ = false := by
  obtain ⟨t, rfl⟩ := hs
  induction t with
  | nil => simpa using h
  | cons x t ih => exact ih (hasDoubleHyphen_tail h)

theorem hasDoubleHyphen_dropWhile (p : Char → Bool) (l : List Char)
    (h : hasDoubleHyphen l = false) :
    hasDoubleHyphen (l.dropWhile p) = false :=
  hasDoubleHyphen_suffix (List.dropWhile_suffix p) h

theorem squeezeHyphens_sublist : ∀ l : List Char, (squeezeHyphens l).Sublist l
  | [] => by simp [squeezeHyphens]
  | [c] => by simp [squeezeHyphens]
  | c :: d :: r => by
    rw [squeezeHyphens]
    split
    · exact (squeezeHyphens_sublist (d :: r)).cons c
    · exact (squeezeHyphens_sublist (d :: r)).cons₂ c

theorem squeezeHyphens_cons (c : Char) (r : List Char) :
    ∃ t, squeezeHyphens (c :: r) = c :: t := by
  cases r with
  | nil => exact ⟨[], rfl⟩
  | cons d r' =>
    rw [squeezeHyphens]
    split
    · rename_i h
      obtain ⟨t, ht⟩ := squeezeHyphens_cons d r'
      refine ⟨t, ?_⟩
      rw [ht]
      simp at h
      rw [h.1, h.2]
    · exact ⟨squeezeHyphens (d :: r'), rfl⟩

theorem squeezeHyphens_noDouble : ∀ l : List Char,
    hasDoubleHyphen (squeezeHyphens l) = false
  | [] => by simp [squeezeHyphens, hasDoubleHyphen]
  | [c] => by simp [squeezeHyphens, hasDoubleHyphen]
  | c :: d :: r => by
    rw [squeezeHyphens]
    split
    · exact squeezeHyphens_noDouble (d :: r)
    · rename_i h
      obtain ⟨t, ht⟩ := squeezeHyphens_cons d r
      rw [ht, hasDoubleHyphen]
      have := squeezeHyphens_noDouble (d :: r)
      rw [ht] at this
      simp only [this, Bool.or_false]
      simpa using h

theorem squeezeHyphens_id : ∀ l : List Char,
    hasDoubleHyphen l = false → squeezeHyphens l = l
  | [] => by simp [squeezeHyphens]
  | [c] => by simp [squeezeHyphens]
  | c :: d :: r => by
    intro h
    rw [hasDoubleHyphen] at h
    obtain ⟨h1, h2⟩ := Bool.or_eq_false_iff.mp h
    rw [squeezeHyphens, if_neg (by simp [h1]), squeezeHyphens_id (d :: r) h2]

theorem replaceAmp_id : ∀ l : List Char, (∀ c ∈ l, c ≠ '&') → replaceAmp l = l
  | [] => fun _ => rfl
  | c :: r => fun h => by
    have hc : c ≠ '&' := h c (by simp)
    rw [replaceAmp, if_neg hc, replaceAmp_id r (fun x hx => h x (by simp [hx]))]
    rfl

theorem stripWhile_sub {p : Char → Bool} {l : List Char} {c : Char}
    (h : c ∈ stripWhile p l) : c ∈ l := by
  unfold stripWhile at h
  rw [List.mem_reverse] at h
  have h1 := ((List.dropWhile_sublist (l := (List.dropWhile p l).reverse) p).mem h)
  rw [List.mem_reverse] at h1
  exact (List.dropWhile_sublist p).mem h1

theorem stripWhile_id {p : Char → Bool} {l : List Char}
    (h : ∀ c ∈ l, p c = false) : stripWhile p l = l := by
  have hdw : ∀ m : List Char, (∀ c ∈ m, p c = false) → m.dropWhile p = m := by
    intro m hm
    cases m with
    | nil => rfl
    | cons c r => rw [List.dropWhile_cons, if_neg (by simp [hm c (by simp)])]
  rw [stripWhile, hdw l h, hdw _ (fun c hc => h c (List.mem_reverse.mp hc)),
    List.reverse_reverse]

theorem getLast?_append_of_ne_nil {m t : List Char} (hne : m ≠ []) :
    (t ++ m).getLast? = m.getLast? := by
  rw [List.getLast?_append]
  cases hg : m.getLast? with
  | none => exact absurd (List.getLast?_eq_none_iff.mp hg) hne
  | some x => simp [Option.or]

theorem stripWhile_head? {p : Char → Bool} {l : List Char} {c : Char}
    (h : (stripWhile p l).head? = some c) : p c = false := by
  unfold stripWhile at h
  rw [List.head?_reverse] at h
  -- `getLast?` of the second `dropWhile` is `getLast?` of its input, which is
  -- `head?` of the first `dropWhile`.
  obtain ⟨t, ht⟩ := List.dropWhile_suffix (l := (l.dropWhile p).reverse) p
  cases hMn : (l.dropWhile p).reverse.dropWhile p with
  | nil => rw [hMn] at h; exact absurd h (by simp)
  | cons m ms =>
    have hne : (l.dropWhile p).reverse.dropWhile p ≠ [] := by rw [hMn]; simp
    have hgl : ((l.dropWhile p).reverse.dropWhile p).getLast? =
        (l.dropWhile p).reverse.getLast? := by
      conv_rhs => rw [← ht]
      rw [getLast?_append_of_ne_nil hne]
    rw [hgl, List.getLast?_reverse] at h
    have := List.head?_dropWhile_not p l
    rw [h] at this
    exact this

theorem stripWhile_getLast? {p : Char → Bool} {l : List Char} {c : Char}
    (h : (stripWhile p l).getLast? = some c) : p c = false := by
  unfold stripWhile at h
  rw [List.getLast?_reverse] at h
  have := List.head?_dropWhile_not p (l.dropWhile p).reverse
  rw [h] at this
  exact this

theorem stripWhile_noDouble {p : Char → Bool} {l : List Char}
    (h : hasDoubleHyphen l = false) :
    hasDoubleHyphen (stripWhile p l) = false := by
  unfold stripWhile
  exact hasDoubleHyphen_reverse_false
    (hasDoubleHyphen_dropWhile _ _
      (hasDoubleHyphen_reverse_false (hasDoubleHyphen_dropWhile _ _ h)))

/-! Character-class facts -/

theorem isSlugChar_cases {c : Char} (h : isSlugChar c = true) :
    ('a' ≤ c ∧ c ≤ 'z') ∨ ('0' ≤ c ∧ c ≤ '9') := by
  unfold isSlugChar at h
  rcases Bool.or_eq_true_iff.mp h with h' | h' <;>
    [left; right] <;> exact ⟨by simpa using (Bool.and_eq_true_iff.mp h').1,
      by simpa using (Bool.and_eq_true_iff.mp h').2⟩

theorem slugOk_not_ws {c : Char} (h : isSlugChar c = true ∨ c = '-') :
    Char.isWhitespace c = false := by
  by_contra hw
  rw [Bool.not_eq_false, Char.isWhitespace] at hw
  have : c = ' ' ∨ c = '\t' ∨ c = '\x0d' ∨ c = '\n' := by
    rcases Bool.or_eq_true_iff.mp hw with h' | h'
    · rcases Bool.or_eq_true_iff.mp h' with h'' | h''
      · rcases Bool.or_eq_true_iff.mp h'' with h3 | h3
        · exact Or.inl (by simpa using h3)
        · exact Or.inr (Or.inl (by simpa using h3))
      · exact Or.inr (Or.inr (Or.inl (by simpa using h'')))
    · exact Or.inr (Or.inr (Or.inr (by simpa using h')))
  rcases this with rfl | rfl | rfl | rfl <;>
    rcases h with h | h <;> simp_all <;> exact absurd h (by decide)

theorem slugOk_toLower {c : Char} (h : isSlugChar c = true ∨ c = '-') :
    Char.toLower c = c := by
  rcases h with h | rfl
  · rcases isSlugChar_cases h with ⟨h1, h2⟩ | ⟨h1, h2⟩
    · rw [Char.le_def] at h1 h2
      have h1' : 97 ≤ c.toNat := h1
      rw [Char.toLower, if_neg (by omega)]
    · rw [Char.le_def] at h1 h2
      have h2' : c.toNat ≤ 57 := h2
      rw [Char.toLower, if_neg (by omega)]
  · decide

theorem stripWhile_id_of_edges {p : Char → Bool} {l : List Char}
    (hh : ∀ c, l.head? = some c → p c = false)
    (hl : ∀ c, l.getLast? = some c → p c = false) : stripWhile p l = l := by
  have d1 : l.dropWhile p = l := by
    cases l with
    | nil => rfl
    | cons c r => rw [List.dropWhile_cons, if_neg (by simp [hh c rfl])]
  have d2 : l.reverse.dropWhile p = l.reverse := by
    cases hr : l.reverse with
    | nil => rfl
    | cons c r =>
      have hgl : l.getLast? = some c := by
        rw [List.getLast?_eq_head?_reverse, hr]; rfl
      rw [List.dropWhile_cons, if_neg (by simp [hl c hgl])]
  rw [stripWhile, d1, d2, List.reverse_reverse]

/-- The well-formedness part of the slug contract: only `[a-z0-9]` and `-`,
no doubled hyphen, no hyphen at either end. -/
def slugNormal (l : List Char) : Prop :=
  (∀ c ∈ l, isSlugChar c = true ∨ c = '-') ∧ hasDoubleHyphen l = false ∧
    l.head? ≠ some '-' ∧ l.getLast? ≠ some '-'

theorem slugify_normal (s : String) : slugNormal (slugify s).data := by
  have key : ∀ X : List Char,
      slugNormal (stripWhile (fun c => c = '-') (squeezeHyphens (subNonAlnum X))) := by
    intro X
    have hcc : ∀ c ∈ (X.map fun c => if isSlugChar c then c else '-'),
        isSlugChar c = true ∨ c = '-' := by
      intro c hc
      obtain ⟨a, _, rfl⟩ := List.mem_map.mp hc
      by_cases h : isSlugChar a = true
      · rw [if_pos h]; exact Or.inl h
      · rw [if_neg h]; exact Or.inr rfl
    have hnd : hasDoubleHyphen (subNonAlnum X) = false := squeezeHyphens_noDouble _
    have hsq : squeezeHyphens (subNonAlnum X) = subNonAlnum X := squeezeHyphens_id _ hnd
    rw [hsq]
    refine ⟨?_, stripWhile_noDouble hnd, ?_, ?_⟩
    · intro c hc
      exact hcc c ((squeezeHyphens_sublist _).mem (stripWhile_sub hc))
    · intro hhd
      have := stripWhile_head? hhd
      simp at this
    · intro hhd
      have := stripWhile_getLast? hhd
      simp at this
  exact key _

theorem slugify_id_of_normal {s : String} (h : slugNormal s.data) : slugify s = s := by
  obtain ⟨hcc, hnd, hh, hl⟩ := h
  have e1 : stripWhile Char.isWhitespace s.data = s.data :=
    stripWhile_id (fun c hc => slugOk_not_ws (hcc c hc))
  have e2 : s.data.map Char.toLower = s.data := by
    have hmc := List.map_congr_left (l := s.data) (f := Char.toLower) (g := id)
      (fun a ha => slugOk_toLower (hcc a ha))
    rw [hmc, List.map_id]
  have e3 : replaceAmp s.data = s.data := by
    refine replaceAmp_id _ (fun c hc heq => ?_)
    subst heq
    rcases hcc '&' hc with h' | h' <;> exact absurd h' (by decide)
  have e4 : subNonAlnum s.data = s.data := by
    unfold subNonAlnum
    have hmap : (s.data.map fun c => if isSlugChar c then c else '-') = s.data := by
      have hmc := List.map_congr_left (l := s.data)
        (f := fun c => if isSlugChar c then c else '-') (g := id) ?_
      · rw [hmc, List.map_id]
      · intro a ha
        show (if isSlugChar a = true then a else '-') = a
        rcases hcc a ha with h' | h'
        · rw [if_pos h']
        · subst h'; decide
    rw [hmap]
    exact squeezeHyphens_id _ hnd
  have e5 : squeezeHyphens s.data = s.data := squeezeHyphens_id _ hnd
  have e6 : stripWhile (fun c => c = '-') s.data = s.data := by
    refine stripWhile_id_of_edges (fun c hc => ?_) (fun c hc => ?_)
    · have : c ≠ '-' := fun he => hh (he ▸ hc)
      simpa using this
    · have : c ≠ '-' := fun he => hl (he ▸ hc)
      simpa using this
  show String.mk (stripWhile (fun c => c = '-') (squeezeHyphens (subNonAlnum
    (replaceAmp ((stripWhile Char.isWhitespace s.data).map Char.toLower))))) = s
  rw [e1, e2, e3, e4, e5, e6]

/-- C3: the slug normalizer is idempotent — `slugify (slugify x) = slugify x`
for every string `x` — and its output consists only of lowercase ASCII
letters, digits and hyphens, with no two adjacent hyphens and no hyphen at
either end (the empty output being allowed). -/
theorem slugify_idempotent_and_wellformed (x : String) :
    slugify (slugify x) = slugify x ∧
    (∀ c ∈ (slugify x).data, isSlugChar c = true ∨ c = '-') ∧
    hasDoubleHyphen (slugify x).data = false ∧
    (slugify x).data.head? ≠ some '-' ∧
    (slugify x).data.getLast? ≠ some '-' := by
  have h := slugify_normal x
  exact ⟨slugify_id_of_normal h, h.1, h.2.1, h.2.2.1, h.2.2.2⟩

/-! ## The title clamp (claims C4, and the length bound reused by C1/C5) -/

theorem rstripL_length (l : List Char) : (rstripL l).length ≤ l.length := by
  rw [rstripL, List.length_reverse]
  calc (l.reverse.dropWhile Char.isWhitespace).length
      ≤ l.reverse.length := (List.dropWhile_sublist _).length_le
    _ = l.length := List.length_reverse _

theorem pySliceTo_length (l : List Char) (k : Int) (hk : 0 ≤ k) :
    (pySliceTo l k).length ≤ k.toNat := by
  rw [pySliceTo, if_neg (not_lt.mpr hk)]
  exact List.length_take_le _ _

/-- The length guarantee of `clamp_title`, valid for every positive limit. -/
theorem clamp_title_length_le (t : String) (mx : Int) (h : 1 ≤ mx) :
    ((clamp_title t mx).length : Int) ≤ mx := by
  by_cases hle : (t.length : Int) ≤ mx
  · rw [clamp_title, if_pos hle]
    exact hle
  · rw [clamp_title, if_neg hle, String.length_append, String.length_mk]
    have h1 : (rstripL (pySliceTo t.data (mx - 1))).length ≤ (mx - 1).toNat :=
      le_trans (rstripL_length _) (pySliceTo_length _ _ (by omega))
    have h2 : ("…" : String).length = 1 := by decide
    rw [h2]
    omega

/-- C4 (amended): for every string and every limit `mx ≥ 1`, `clamp_title`
returns the string unchanged when it fits, otherwise the first `mx - 1`
characters with trailing whitespace stripped followed by one ellipsis
character, and the result never exceeds `mx` characters; clamping a
200-character run of `x` to 70 gives a string of length exactly 70 ending in
the ellipsis character, and `clamp_title "short" 70 = "short"`.
(For `mx ≤ 0` the length bound fails, see the counterexample.) -/
theorem clamp_title_contract :
    (∀ (t : String) (mx : Int), 1 ≤ mx →
      ((clamp_title t mx).length : Int) ≤ mx ∧
      ((t.length : Int) ≤ mx → clamp_title t mx = t) ∧
      (mx < (t.length : Int) →
        clamp_title t mx =
          String.mk (rstripL (pySliceTo t.data (mx - 1))) ++ "…")) ∧
    (clamp_title (String.mk (List.replicate 200 'x')) 70).length = 70 ∧
    (clamp_title (String.mk (List.replicate 200 'x')) 70).data.getLast? = some '…' ∧
    clamp_title "short" 70 = "short" := by
  refine ⟨?_, by decide, by decide, by decide⟩
  intro t mx h
  refine ⟨clamp_title_length_le t mx h, fun hle => ?_, fun hlt => ?_⟩
  · rw [clamp_title, if_pos hle]
  · rw [clamp_title, if_neg (not_le.mpr hlt)]

/-- C4 (counterexample to the unrestricted claim): with limit `0` and input
`"ab"`, the clamp returns `"a…"`, whose length 2 exceeds the limit. -/
theorem clamp_title_zero_limit_exceeded :
    clamp_title "ab" 0 = "a…" ∧ (clamp_title "ab" 0).length = 2 ∧
    ¬(((clamp_title "ab" 0).length : Int) ≤ 0) := by decide

/-- Witness: the contract applied at a concrete input (`"abcdefgh"`, limit 5). -/
theorem clamp_title_contract_witness :
    ((clamp_title "abcdefgh" 5).length : Int) ≤ 5 ∧ clamp_title "abcdefgh" 5 = "abcd…" :=
  ⟨(clamp_title_contract.1 "abcdefgh" 5 (by decide)).1, by decide⟩

/-! ## CONFIG section of `generate.py` -/

/-- The frozen `SiteConfig` dataclass. -/
structure SiteConfig where
  service_name : String := "Wasp Nest/Wasp Hive Removal & Wasp Control Services"
  brand_name : String := "Wasp Nest Removal Company"
  cta_text : String := "Get Free Estimate"
  cta_href : String := "mailto:hello@example.com?subject=Free%20Quote%20Request"
  output_dir : String := "public"
  image_filename : String := "picture.png"
  cost_low : Int := 150
  cost_high : Int := 450

/-- The module-level `CONFIG = SiteConfig()`. -/
def CONFIG : SiteConfig := {}

/-- The 20 configured `(city, state)` pairs. -/
def CITIES : List (String × String) := [
  ("Los Angeles", "CA"),
  ("New York", "NY"),
  ("Chicago", "IL"),
  ("Houston", "TX"),
  ("Phoenix", "AZ"),
  ("Philadelphia", "PA"),
  ("San Antonio", "TX"),
  ("San Diego", "CA"),
  ("Dallas", "TX"),
  ("San Jose", "CA"),
  ("Austin", "TX"),
  ("Jacksonville", "FL"),
  ("Fort Worth", "TX"),
  ("Columbus", "OH"),
  ("Charlotte", "NC"),
  ("San Francisco", "CA"),
  ("Indianapolis", "IN"),
  ("Seattle", "WA"),
  ("Denver", "CO"),
  ("Washington", "DC")
]

/-- The `H2_SHARED` heading/keyword list. -/
def H2_SHARED : List String := [
  "Wasp Nest Removal",
  "Wasp Control",
  "Wasp Exterminator",
  "Paper Wasp Nest Removal",
  "Ground Wasp Nest Removal",
  "Wasp Removal"
]

/-- The `H2_COST` heading/keyword list. -/
def H2_COST : List String := [
  "Wasp Nest Removal Cost",
  "How Much Does It Cost to Remove a Wasp Nest",
  "Cost of Wasp Nest Removal",
  "Wasp Removal Cost",
  "Wasp Nest Removal Price",
  "Hornet Nest Removal Cost"
]

/-- The `H2_HOWTO` heading/keyword list. -/
def H2_HOWTO : List String := [
  "How to Get Rid of Wasp Nest",
  "How to Remove Wasp Nest",
  "Remove Wasp Nest",
  "Best Time to Spray Wasp Nest",
  "Wasp Spray",
  "What Kills Wasps"
]

/-- The `ALSO_MENTIONED` heading/keyword list. -/
def ALSO_MENTIONED : List String := [
  "pest control",
  "spray",
  "spray bottle",
  "dish soap",
  "wasp stings",
  "price",
  "removal",
  "nest",
  "wasp"
]

/-! The `CSS` constant (the Python source wraps it in a triple-quoted
literal and calls `.strip()`; the stripped value is embedded here,
split over several concatenated literals). -/

def cssPart1 : String :=
  ":root\x7b\n  /* Core */\n  --bg: #0b1220;\n  --bg2:#070b14;\n  --surface: rgba(255,255,255,0.06);\n  --surface2: rgba(255,255,255,0.085);\n  --card: rgba(255,255,255,0.075);\n  --ink: #e8eefc;\n  --muted: rgba(232,238,252,0.72);\n  --muted2: rgba(232,238,252,0.62);\n  --line: rgba(232,238,252,0.12);\n\n  /* Brand accent */\n  --accent: #38bdf8;\n  --accent2:#22c55e;\n  --accent3:#a78bfa;\n\n  /* Layout */\n  --max: 980px;\n  --radius: 16px;\n  --radius2: 22px;\n  --shadow: 0 16px 45px rgba(0,0,0,0.40);\n  --shadow2: 0 10px 26px rgba(0,0,0,0.28);\n\x7d\n\n*\x7bbox-sizing:border-box\x7d\nhtml\x7bcolor-scheme:dark\x7d\nbody\x7b\n  margin:0;\n  font-family: ui-sans-serif, system-ui, -apple-system, Segoe UI, Roboto, Helvetica, Arial;"

def cssPart2 : String :=
  "\n  color:var(--ink);\n  background:\n    radial-gradient(900px 450px at 18% -10%, rgba(56,189,248,0.22), transparent 60%),\n    radial-gradient(800px 420px at 92% 0%, rgba(167,139,250,0.18), transparent 55%),\n    radial-gradient(900px 520px at 40% 110%, rgba(34,197,94,0.12), transparent 60%),\n    linear-gradient(180deg, var(--bg), var(--bg2));\n  line-height:1.6;\n\x7d\n\na\x7bcolor:inherit\x7d\na:focus\x7boutline:2px solid var(--accent); outline-offset:3px\x7d\n\n/* Topbar */\n.topbar\x7b\n  position:sticky;\n  top:0;\n  z-index:50;\n  background: rgba(7,11,20,0.70);\n  backdrop-filter: blur(10px);\n  border-bottom:1px solid var(--line);\n\x7d\n.topbar-inner\x7b\n  max-width:var(--max);\n  margin:0 auto;\n  padding:12px 18px;"

def cssPart3 : String :=
  "\n  display:flex;\n  align-items:center;\n  justify-content:space-between;\n  gap:14px;\n\x7d\n.brand\x7b\n  display:flex;\n  align-items:center;\n  gap:10px;\n  font-weight:900;\n  letter-spacing:-0.02em;\n  text-decoration:none;\n  white-space:nowrap;\n\x7d\n.brand-mark\x7b\n  width:26px;\n  height:26px;\n  border-radius:9px;\n  background:\n    radial-gradient(circle at 30% 20%, rgba(255,255,255,0.30), transparent 45%),\n    linear-gradient(135deg, rgba(56,189,248,0.85), rgba(167,139,250,0.65));\n  box-shadow: 0 10px 26px rgba(0,0,0,0.30);\n  border:1px solid rgba(255,255,255,0.18);\n\x7d\n.nav\x7b\n  display:flex;\n  align-items:center;\n  gap:10px;\n  flex-wrap:wrap;\n  justify-content:flex-end;\n\x7d\n.nav a\x7b\n  text-decoration:none;"

def cssPart4 : String :=
  "\n  font-size:13px;\n  color:var(--muted);\n  padding:8px 10px;\n  border-radius:12px;\n  border:1px solid transparent;\n  transition: transform .14s ease, background .14s ease, border-color .14s ease, color .14s ease;\n\x7d\n.nav a:hover\x7b\n  color:var(--ink);\n  background: rgba(255,255,255,0.06);\n  border-color: rgba(255,255,255,0.10);\n  transform: translateY(-1px);\n\x7d\n.nav a[aria-current=\"page\"]\x7b\n  color:var(--ink);\n  background: rgba(255,255,255,0.08);\n  border-color: rgba(255,255,255,0.14);\n\x7d\n\n/* Buttons */\n.btn\x7b\n  display:inline-flex;\n  align-items:center;\n  justify-content:center;\n  gap:8px;\n  padding:10px 13px;\n  background:"

def cssPart5 : String :=
  "\n    linear-gradient(135deg, rgba(56,189,248,0.95), rgba(167,139,250,0.75));\n  color:#04101f;\n  border-radius:13px;\n  text-decoration:none;\n  font-weight:900;\n  font-size:13px;\n  border:1px solid rgba(255,255,255,0.22);\n  box-shadow: 0 14px 30px rgba(0,0,0,0.35);\n  transition: transform .14s ease, box-shadow .14s ease, filter .14s ease;\n\x7d\n.btn:hover\x7b transform: translateY(-1px); filter: brightness(1.02); box-shadow: 0 18px 40px rgba(0,0,0,0.42); \x7d\n.btn:focus\x7b outline:2px solid var(--accent); outline-offset:3px; \x7d\n\n/* Hero */\nheader\x7b\n  border-bottom:1px solid var(--line);\n  background:\n    radial-gradient(850px 260px at 12% 10%, rgba(56,189,248,0.18), transparent 60%),"

def cssPart6 : String :=
  "\n    radial-gradient(700px 280px at 96% 25%, rgba(167,139,250,0.14), transparent 58%),\n    rgba(255,255,255,0.02);\n\x7d\n.hero\x7b\n  max-width:var(--max);\n  margin:0 auto;\n  padding:30px 18px 22px;\n  display:grid;\n  gap:12px;\n\x7d\n.kicker\x7b\n  display:flex;\n  align-items:center;\n  gap:10px;\n  flex-wrap:wrap;\n\x7d\n.pill\x7b\n  display:inline-flex;\n  align-items:center;\n  gap:8px;\n  padding:6px 11px;\n  border-radius:999px;\n  font-size:12px;\n  font-weight:900;\n  background: rgba(255,255,255,0.06);\n  border:1px solid rgba(255,255,255,0.14);\n  color:var(--muted);\n\x7d\n.pill-dot\x7b\n  width:8px;\n  height:8px;\n  border-radius:99px;\n  background: linear-gradient(135deg, var(--accent), var(--accent3));"

def cssPart7 : String :=
  "\n  box-shadow: 0 0 0 3px rgba(56,189,248,0.12);\n\x7d\n.hero h1\x7b\n  margin:0;\n  font-size:30px;\n  letter-spacing:-0.03em;\n  line-height:1.14;\n\x7d\n.sub\x7b\n  margin:0;\n  color:var(--muted);\n  max-width:76ch;\n  font-size:14px;\n\x7d\n.hero-cta\x7b\n  display:flex;\n  align-items:center;\n  gap:10px;\n  flex-wrap:wrap;\n  margin-top:6px;\n\x7d\n.ghost\x7b\n  display:inline-flex;\n  align-items:center;\n  gap:8px;\n  padding:10px 12px;\n  border-radius:13px;\n  border:1px solid rgba(255,255,255,0.14);\n  background: rgba(255,255,255,0.04);\n  color:var(--ink);\n  text-decoration:none;\n  font-weight:800;\n  font-size:13px;\n  transition: transform .14s ease, background .14s ease, border-color .14s ease;\n\x7d"

def cssPart8 : String :=
  "\n.ghost:hover\x7b transform: translateY(-1px); background: rgba(255,255,255,0.06); border-color: rgba(255,255,255,0.18); \x7d\n\nmain\x7b\n  max-width:var(--max);\n  margin:0 auto;\n  padding:22px 18px 46px;\n\x7d\n\n/* Card / content */\n.card\x7b\n  background: linear-gradient(180deg, rgba(255,255,255,0.085), rgba(255,255,255,0.05));\n  border:1px solid rgba(255,255,255,0.14);\n  border-radius:var(--radius2);\n  padding:18px;\n  box-shadow: var(--shadow);\n\x7d\n.card-inner\x7b\n  padding-top:10px;\n\x7d\n.img\x7b\n  margin-top:12px;\n  border-radius:14px;\n  overflow:hidden;\n  border:1px solid rgba(255,255,255,0.14);\n  background: rgba(255,255,255,0.03);\n  box-shadow: var(--shadow2);\n\x7d\n.img img\x7bdisplay:block; width:100%; height:auto\x7d\n"

def cssPart9 : String :=
  "\nh2\x7b\n  margin:18px 0 8px;\n  font-size:16px;\n  letter-spacing:-0.01em;\n\x7d\np\x7bmargin:0 0 10px\x7d\n.muted\x7bcolor:var(--muted2); font-size:13px\x7d\nhr\x7b\n  border:0;\n  border-top:1px solid rgba(255,255,255,0.12);\n  margin:18px 0;\n\x7d\n\n/* City list */\n.city-grid\x7b\n  list-style:none;\n  padding:0;\n  margin:10px 0 0;\n  display:grid;\n  gap:10px;\n  grid-template-columns:repeat(auto-fit,minmax(190px,1fr));\n\x7d\n.city-grid a\x7b\n  display:block;\n  text-decoration:none;\n  color:var(--ink);\n  background: rgba(255,255,255,0.04);\n  border:1px solid rgba(255,255,255,0.12);\n  border-radius:14px;\n  padding:11px 12px;\n  font-weight:800;\n  font-size:14px;"

def cssPart10 : String :=
  "\n  transition: transform .14s ease, background .14s ease, border-color .14s ease;\n\x7d\n.city-grid a:hover\x7b\n  transform: translateY(-1px);\n  background: rgba(255,255,255,0.06);\n  border-color: rgba(255,255,255,0.18);\n\x7d\n\n/* Conversion callout (city pages) */\n.callout\x7b\n  margin-top:14px;\n  padding:12px 12px;\n  border-radius:16px;\n  border:1px solid rgba(56,189,248,0.22);\n  background:\n    radial-gradient(500px 200px at 10% 20%, rgba(56,189,248,0.18), transparent 55%),\n    rgba(255,255,255,0.04);\n  display:flex;\n  align-items:flex-start;\n  justify-content:space-between;\n  gap:12px;\n\x7d\n.callout strong\x7b\n  display:block;\n  font-size:13px;\n  letter-spacing:-0.01em;\n  margin-bottom:2px;\n\x7d\n.callout p\x7b"

def cssPart11 : String :=
  "\n  margin:0;\n  color:var(--muted);\n  font-size:13px;\n\x7d\n.callout .btn\x7b\n  white-space:nowrap;\n  box-shadow:none;\n  border-color: rgba(255,255,255,0.22);\n\x7d\n\n/* Footer */\nfooter\x7b\n  border-top:1px solid var(--line);\n  background: rgba(255,255,255,0.02);\n\x7d\n.footer-inner\x7b\n  max-width:var(--max);\n  margin:0 auto;\n  padding:28px 18px;\n  display:grid;\n  gap:12px;\n\x7d\n.footer-cta\x7b\n  background:\n    radial-gradient(700px 220px at 12% 10%, rgba(34,197,94,0.14), transparent 55%),\n    radial-gradient(700px 240px at 92% 30%, rgba(56,189,248,0.14), transparent 55%),\n    rgba(255,255,255,0.04);\n  border:1px solid rgba(255,255,255,0.12);\n  border-radius:18px;\n  padding:16px;\n  box-shadow: var(--shadow2);\n\x7d"

def cssPart12 : String :=
  "\n.footer-cta h2\x7bmargin:0 0 6px; font-size:18px\x7d\n.footer-links\x7bdisplay:flex; gap:12px; flex-wrap:wrap\x7d\n.footer-links a\x7bcolor:var(--muted); text-decoration:none; font-size:13px; padding:6px 0\x7d\n.footer-links a:hover\x7bcolor:var(--ink)\x7d\n.small\x7bcolor:var(--muted2); font-size:12px; margin-top:6px\x7d\n\n@media (max-width:520px)\x7b\n  .hero h1\x7bfont-size:26px\x7d\n  .topbar-inner\x7bgap:10px\x7d\n  .nav\x7bgap:6px\x7d\n  .nav a\x7bpadding:7px 9px\x7d\n  .callout\x7bflex-direction:column; align-items:stretch\x7d\n  .callout .btn\x7bwidth:100%\x7d\n\x7d"

def CSS : String :=
  cssPart1 ++ cssPart2 ++ cssPart3 ++ cssPart4 ++ cssPart5 ++ cssPart6 ++ cssPart7 ++ cssPart8 ++ cssPart9 ++ cssPart10 ++ cssPart11 ++ cssPart12

/-! ## HTML building blocks -/

/-- The nested `item` helper of `nav_html` (hoisted to the top level; it
closes over `current`). -/
def nav_item (current : String) (href label key : String) : String :=
  "<a href=\"" ++ esc href ++ "\"" ++
    (if current = key then " aria-current=\"page\"" else "") ++
    ">" ++ esc label ++ "</a>"

/-- The builder `nav_html` (the module-level `CONFIG` is passed explicitly as `cfg`). -/
def nav_html (cfg : SiteConfig) (current : String) : String :=
  "<nav class=\"nav\" aria-label=\"Primary navigation\">" ++
    nav_item current "/" "Home" "home" ++
    nav_item current "/cost/" "Cost" "cost" ++
    nav_item current "/how-to/" "How-To" "howto" ++
    "<a class=\"btn\" href=\"" ++ esc cfg.cta_href ++ "\">" ++ esc cfg.cta_text ++ "</a>" ++
    "</nav>"

/-- The builder `base_html`. -/
def base_html (cfg : SiteConfig) (title canonical_path description current_nav body : String) : String :=
  "<!doctype html>\n<html lang=\"en\">\n<head>\n  <meta charset=\"utf-8\" />\n  <meta name=\"viewport\" content=\"width=device-width, initial-scale=1\" />\n  <title>" ++
  esc title ++
  "</title>\n  <meta name=\"description\" content=\"" ++
  esc description ++
  "\" />\n  <link rel=\"canonical\" href=\"" ++
  esc canonical_path ++
  "\" />\n  <style>\n" ++
  CSS ++
  "\n  </style>\n</head>\n<body>\n  <div class=\"topbar\">\n    <div class=\"topbar-inner\">\n      <a class=\"brand\" href=\"/\">\n        <span class=\"brand-mark\" aria-hidden=\"true\"></span>\n        <span>" ++
  esc cfg.brand_name ++
  "</span>\n      </a>\n      " ++
  nav_html cfg current_nav ++
  "\n    </div>\n  </div>\n" ++
  body ++
  "\n</body>\n</html>\n"

/-- The builder `header_block`.  The Python body is an f-string with `.rstrip()` applied
to the result; `secondary` is the conditional secondary call-to-action. -/
def header_block (cfg : SiteConfig) (h1 sub pill : String)
    (show_secondary_cta : Bool := true) : String :=
  let secondary : String :=
    if show_secondary_cta then
      "<a class=\"ghost\" href=\"/cost/\">See typical pricing</a>"
    else ""
  rstripS (
    "\n<header>\n  <div class=\"hero\">\n    <div class=\"kicker\">\n      <span class=\"pill\"><span class=\"pill-dot\" aria-hidden=\"true\"></span>" ++
    esc pill ++
    "</span>\n    </div>\n    <h1>" ++
    esc h1 ++
    "</h1>\n    <p class=\"sub\">" ++
    esc sub ++
    "</p>\n    <div class=\"hero-cta\">\n      <a class=\"btn\" href=\"" ++
    esc cfg.cta_href ++
    "\">" ++
    esc cfg.cta_text ++
    "</a>\n      " ++
    secondary ++
    "\n    </div>\n  </div>\n</header>\n")

/-- The builder `footer_block`. -/
def footer_block (cfg : SiteConfig) : String :=
  rstripS (
    "\n<footer>\n  <div class=\"footer-inner\">\n    <div class=\"footer-cta\">\n      <h2>Next steps</h2>\n      <p class=\"sub\">Ready to move forward? Request a free quote.</p>\n      <div style=\"margin-top:10px\">\n        <a class=\"btn\" href=\"" ++
    esc cfg.cta_href ++
    "\">" ++
    esc cfg.cta_text ++
    "</a>\n      </div>\n    </div>\n\n    <div class=\"footer-links\">\n      <a href=\"/\">Home</a>\n      <a href=\"/cost/\">Cost</a>\n      <a href=\"/how-to/\">How-To</a>\n    </div>\n    <div class=\"small\">© " ++
    esc cfg.brand_name ++
    ". All rights reserved.</div>\n  </div>\n</footer>\n")
/-- The builder `page_shell`: header, image card around the inner content, footer,
with `.rstrip()` applied to the concatenation. -/
def page_shell (cfg : SiteConfig) (h1 sub pill inner_html : String)
    (show_secondary_cta : Bool := true) : String :=
  let img_src : String := "/" ++ cfg.image_filename
  rstripS (
    header_block cfg h1 sub pill show_secondary_cta ++
    "\n<main>\n  <section class=\"card\">\n    <div class=\"img\">\n      <img src=\"" ++
    esc img_src ++
    "\" alt=\"Service image\" loading=\"lazy\" />\n    </div>\n    <div class=\"card-inner\">\n      " ++
    inner_html ++
    "\n    </div>\n  </section>\n</main>\n" ++
    footer_block cfg)

/-- The builder `shared_sections_html`: the six `H2_SHARED` sections; `local_line` is the
optional city line (Python checks its truthiness: `None` and `""` both
produce the empty fragment). -/
def shared_sections_html (local_line : Option String := none) : String :=
  let localFrag : String :=
    match local_line with
    | some t => if t = "" then "" else
        " <span class=\"muted\">" ++
        esc t ++
        "</span>"
    | none => ""
  rstripS (
    "\n<h2>" ++
    esc (H2_SHARED.getD 0 "") ++
    "</h2>\n<p>\n  We remove a wasp nest by finding where the wasps enter, treating the nest, and taking it down once activity drops.\n  If you see steady wasp traffic to one spot, that’s usually the nest’s main entrance." ++
    localFrag ++
    "\n</p>\n<p class=\"muted\">\n  If the nest is high up or you can’t confirm where it sits, don’t poke around—disturbing an active " ++
    esc (ALSO_MENTIONED.getD 7 "") ++
    " is a fast way to get stung.\n</p>\n\n<h2>" ++
    esc (H2_SHARED.getD 1 "") ++
    "</h2>\n<p>\n  Wasp control is about preventing repeat activity after the nest is handled. That usually means checking common rebuild spots\n  and reducing easy access points—small gaps, sheltered ledges, and other places a new nest can get started.\n</p>\n\n<h2>" ++
    esc (H2_SHARED.getD 2 "") ++
    "</h2>\n<p>\n  A wasp exterminator is the right call when access is risky or the nest is in a tight void. If you’re worried about " ++
    esc (ALSO_MENTIONED.getD 4 "") ++
    ",\n  getting it handled safely is the smarter move.\n</p>\n\n<h2>" ++
    esc (H2_SHARED.getD 3 "") ++
    "</h2>\n<p>\n  Paper wasp nest removal is often needed under eaves and overhangs where nests stay dry and protected. The nest can look small from the ground,\n  but activity level is the better clue—heavy traffic usually means a larger colony than it appears.\n</p>\n\n<h2>" ++
    esc (H2_SHARED.getD 4 "") ++
    "</h2>\n<p>\n  Ground wasp nest removal is different because the entrance can be a small hole and the nest can spread under the soil.\n  Treating the wrong spot can make the area “hot” with defensive wasps, so approach and timing matter more here than almost anywhere else.\n</p>\n\n<h2>" ++
    esc (H2_SHARED.getD 5 "") ++
    "</h2>\n<p>\n  Wasp removal is the hands-on work: locate the nest, treat it, and confirm activity drops. Spraying random surfaces doesn’t solve the problem—the nest does.\n  If you keep seeing wasps returning to the same spot, you’re missing the actual entrance.\n</p>\n")

/-- The builder `cost_sections_html`. -/
def cost_sections_html (cfg : SiteConfig) : String :=
  rstripS (
    "\n<h2>" ++
    esc (H2_COST.getD 0 "") ++
    "</h2>\n<p>\n  Wasp nest removal cost depends mostly on access and nest location. A visible nest under an eave is typically quicker than one tucked into a structure.\n</p>\n\n<h2>" ++
    esc (H2_COST.getD 1 "") ++
    "</h2>\n<p>\n  Most homeowners pay somewhere between $" ++
    toString cfg.cost_low ++
    " and $" ++
    toString cfg.cost_high ++
    " for a single nest removal.\n  High nests, hidden nests, and extra time on site are what usually push the total higher.\n</p>\n\n<h2>" ++
    esc (H2_COST.getD 2 "") ++
    "</h2>\n<p>\n  The cost of wasp nest removal moves with labor time and risk. Bigger nests, awkward rooflines, and repeated trips are common drivers behind a higher " ++
    esc (ALSO_MENTIONED.getD 5 "") ++
    ".\n</p>\n\n<h2>" ++
    esc (H2_COST.getD 3 "") ++
    "</h2>\n<p>\n  Wasp removal cost can be lower when the nest is small and easy to access, and higher when it’s established and defensive.\n  If the nest has already been disturbed, the job can take longer because the wasps are more aggressive.\n</p>\n\n<h2>" ++
    esc (H2_COST.getD 4 "") ++
    "</h2>\n<p>\n  Wasp nest removal price is basically the same question as “cost,” just phrased differently. What matters is whether the nest is simple to reach and remove,\n  or whether it needs special handling for safety.\n</p>\n\n<h2>" ++
    esc (H2_COST.getD 5 "") ++
    "</h2>\n<p>\n  Hornet nest removal cost is often higher because hornet nests can be larger and more defensive, and they’re frequently placed higher or deeper in sheltered areas.\n</p>\n\n<hr />\n\n<p class=\"muted\">\n  Typical installed range (single nest, many homes): $" ++
    toString cfg.cost_low ++
    "–$" ++
    toString cfg.cost_high ++
    ". Final pricing depends on access, nest location, and time on site.\n</p>\n")

/-- The builder `howto_sections_html`. -/
def howto_sections_html : String :=
  rstripS (
    "\n<h2>" ++
    esc (H2_HOWTO.getD 0 "") ++
    "</h2>\n<p>\n  To get rid of a wasp nest, don’t provoke it first. The safest plan is to identify the entrance, keep people and pets away, and treat the nest when activity is low.\n  If you can’t clearly see the nest or it’s high up, skip this and call a pro.\n</p>\n\n<h2>" ++
    esc (H2_HOWTO.getD 1 "") ++
    "</h2>\n<p>\n  To remove a wasp nest, you treat it first and only take it down once activity drops. Pulling down an active nest is what triggers defensive behavior and increases the risk of " ++
    esc (ALSO_MENTIONED.getD 4 "") ++
    ".\n</p>\n\n<h2>" ++
    esc (H2_HOWTO.getD 2 "") ++
    "</h2>\n<p>\n  “Remove wasp nest” really means removing the source of activity, not just spraying around. If wasps keep returning to the same spot, the nest entrance is still active.\n</p>\n\n<h2>" ++
    esc (H2_HOWTO.getD 3 "") ++
    "</h2>\n<p>\n  The best time to spray a wasp nest is when activity is low and fewer wasps are flying in and out. Bad timing can make the nest more defensive and the situation worse.\n</p>\n\n<h2>" ++
    esc (H2_HOWTO.getD 4 "") ++
    "</h2>\n<p>\n  Wasp spray only helps if you can safely hit the nest and follow directions. Improvising with a " ++
    esc (ALSO_MENTIONED.getD 2 "") ++
    " or mixing products can create safety issues—don’t do that.\n</p>\n\n<h2>" ++
    esc (H2_HOWTO.getD 5 "") ++
    "</h2>\n<p>\n  What kills wasps depends on the product and direct contact, but the bigger point is targeting the nest. If you can’t safely reach it,\n  trying to “solve it from a distance” usually just spreads activity and increases sting risk.\n</p>\n")

/-- The builder `cost_callout_html` (the city-page pricing callout). -/
def cost_callout_html (cfg : SiteConfig) (city state : String) : String :=
  rstripS (
    "\n<div class=\"callout\" role=\"note\" aria-label=\"Typical pricing callout\">\n  <div>\n    <strong>Typical cost range in " ++
    esc city ++
    ", " ++
    esc state ++
    "</strong>\n    <p>$" ++
    toString cfg.cost_low ++
    "–$" ++
    toString cfg.cost_high ++
    " for one nest in many homes. Access &amp; nest location drive the final total.</p>\n  </div>\n  <div>\n    <a class=\"btn\" href=\"" ++
    esc cfg.cta_href ++
    "\">" ++
    esc cfg.cta_text ++
    "</a>\n  </div>\n</div>\n")

/-! ## PAGE FACTORY and pages -/

/-- The page factory `make_page`: clamps the H1 to 70 characters, forces `title == h1`,
clamps the description to 155 characters, and assembles the document. -/
def make_page (cfg : SiteConfig)
    (h1 canonical description nav_key pill sub inner : String)
    (show_secondary_cta : Bool := true) : String :=
  let h1c := clamp_title h1 70
  let title := h1c
  base_html cfg title canonical (clamp_title description 155) nav_key
    (page_shell cfg h1c sub pill inner show_secondary_cta)

/-- Python's `sep.join(items)`. -/
def pyJoin (sep : String) : List String → String
  | [] => ""
  | [x] => x
  | x :: xs => x ++ sep ++ pyJoin sep xs

/-- The builder `homepage_html` (the module-level `CITIES` passed explicitly). -/
def homepage_html (cfg : SiteConfig) (cities : List (String × String)) : String :=
  let h1 := cfg.service_name
  let city_links := pyJoin "\n" (cities.map (fun cs =>
    "<li><a href=\"" ++
    esc ("/" ++ city_state_slug cs.1 cs.2 ++ "/") ++
    "\">" ++
    esc cs.1 ++
    ", " ++
    esc cs.2 ++
    "</a></li>"))
  let inner :=
    shared_sections_html none ++
    "\n<hr />\n<p class=\"muted\" style=\"margin-bottom:10px; font-weight:900; letter-spacing:-0.01em;\">\n  Choose your city\n</p>\n<p class=\"muted\">Select a city page for the same guide with a light local line.</p>\n<ul class=\"city-grid\">\n" ++
    city_links ++
    "\n</ul>\n<hr />\n<p class=\"muted\">\n  Also available: <a href=\"/cost/\">Wasp Nest Removal Cost</a> and <a href=\"/how-to/\">How to Get Rid of Wasp Nest</a>.\n</p>\n"
  make_page cfg h1
    "/"
    "Straight answers on wasp nest removal and wasp control."
    "home"
    "Main service page"
    "How removal works, what prevents repeat activity, and when to call help."
    inner
    true

/-- The builder `city_page_html`. -/
def city_page_html (cfg : SiteConfig) (city state : String) : String :=
  let inner :=
    cost_callout_html cfg city state ++
    "\n" ++
    shared_sections_html (some ("Serving " ++ city ++ ", " ++ state ++ ".")) ++
    "\n<hr />\n<p class=\"muted\">\n  Want the full breakdown? See the <a href=\"/cost/\">cost page</a> for the factors that move pricing.\n</p>\n"
  make_page cfg (city_h1 cfg.service_name city state)
    ("/" ++ city_state_slug city state ++ "/")
    ("Wasp nest removal and wasp control guide with local context for " ++
    city ++
    ", " ++
    state ++
    ".")
    "home"
    "City service page"
    "Same core guide, plus a quick local note and a pricing snapshot."
    inner
    true

/-- The builder `cost_page_html`. -/
def cost_page_html (cfg : SiteConfig) : String :=
  make_page cfg
    "Wasp Nest Removal Cost Services"
    "/cost/"
    "Typical wasp nest removal cost ranges and what changes pricing."
    "cost"
    "Cost page"
    "Simple ranges and the factors that usually move the price."
    (cost_sections_html cfg)
    false

/-- The builder `howto_page_html`. -/
def howto_page_html (cfg : SiteConfig) : String :=
  make_page cfg
    "How to Get Rid of Wasp Nest Services"
    "/how-to/"
    "Clear steps for dealing with a wasp nest without making it worse."
    "howto"
    "How-to page"
    "A practical guide that prioritizes safety and reduces repeat activity."
    (howto_sections_html)
    false

/-- The constant `robots_txt`. -/
def robots_txt : String := "User-agent: *\nAllow: /\nSitemap: /sitemap.xml\n"

/-- The builder `sitemap_xml`: header, one `<url><loc>…</loc></url>` line per URL, footer. -/
def sitemap_xml (urls : List String) : String :=
  "<?xml version=\"1.0\" encoding=\"UTF-8\"?>\n" ++
  "<urlset xmlns=\"http://www.sitemaps.org/schemas/sitemap/0.9\">\n" ++
  String.join (urls.map (fun u => "  <url><loc>" ++ u ++ "</loc></url>\n")) ++
  "</urlset>\n"

/-! ## MAIN driver (pure part): output manifest and file contents -/

/-- The `urls` list built in `main`:
`["/", "/cost/", "/how-to/"] + [f"/{city_state_slug(c, s)}/" for c, s in CITIES]`. -/
def mainUrls (cities : List (String × String)) : List String :=
  ["/", "/cost/", "/how-to/"] ++ cities.map (fun cs => "/" ++ city_state_slug cs.1 cs.2 ++ "/")

/-- The `(relative path, content)` pairs written by `main`, in write order
(the pure content of the `write_text` calls; actual filesystem I/O is
modelled separately for the error-handling claim). -/
def generate (cfg : SiteConfig) (cities : List (String × String)) : List (String × String) :=
  [("index.html", homepage_html cfg cities),
   ("cost/index.html", cost_page_html cfg),
   ("how-to/index.html", howto_page_html cfg)] ++
  cities.map (fun cs => (city_state_slug cs.1 cs.2 ++ "/index.html", city_page_html cfg cs.1 cs.2)) ++
  [("robots.txt", robots_txt), ("sitemap.xml", sitemap_xml (mainUrls cities))]

/-- The 23 HTML documents of the configured site (home, cost, how-to, and
one page per configured city). -/
def sitePages : List String :=
  [homepage_html CONFIG CITIES, cost_page_html CONFIG, howto_page_html CONFIG] ++
  CITIES.map (fun cs => city_page_html CONFIG cs.1 cs.2)
/-! ## An HTML element scanner

To state claims about "the `<title>` / `<h1>` / `<h2>` elements of a page"
we scan the rendered document character by character: a `<title>`, `<h1>` or
`<h2>` opening tag starts a capture that ends at the next `<`.  (In every
generated page the text content of these elements is HTML-escaped, so it
contains no `<`, and these tags are emitted in exactly this unattributed
form.) -/

inductive ScanMode where
  | out : ScanMode
  | seenLt : ScanMode
  | cap : String → List Char → ScanMode
deriving Repr, DecidableEq

/-- One pass over the document, returning the ordered list of
`(tag, text)` pairs for `title`/`h1`/`h2` elements. -/
def scanElems : ScanMode → List Char → List (String × String)
  | .out, [] => []
  | .out, c :: r => if c = '<' then scanElems .seenLt r else scanElems .out r
  | .seenLt, [] => []
  | .seenLt, l =>
    match l with
    | 't' :: 'i' :: 't' :: 'l' :: 'e' :: '>' :: r => scanElems (.cap "title" []) r
    | 'h' :: '1' :: '>' :: r => scanElems (.cap "h1" []) r
    | 'h' :: '2' :: '>' :: r => scanElems (.cap "h2" []) r
    | '<' :: r => scanElems .seenLt r
    | _ :: r => scanElems .out r
    | [] => []
  | .cap _ _, [] => []
  | .cap t acc, c :: r =>
    if c = '<' then (t, String.mk acc.reverse) :: scanElems .seenLt r
    else scanElems (.cap t (c :: acc)) r

/-- The ordered texts of the `tag` elements of a document. -/
def elemTexts (s : String) (tag : String) : List String :=
  (scanElems .out s.data).filterMap (fun p => if p.1 = tag then some p.2 else none)

theorem scanElems_out_cons {c : Char} (h : c ≠ '<') (r : List Char) :
    scanElems .out (c :: r) = scanElems .out r := by
  rw [scanElems]
  exact if_neg h

theorem scanElems_cap_cons {t : String} {c : Char} {acc : List Char}
    (h : c ≠ '<') (r : List Char) :
    scanElems (.cap t acc) (c :: r) = scanElems (.cap t (c :: acc)) r := by
  rw [scanElems]
  exact if_neg h

theorem scanElems_out_ltFree :
    ∀ (l : List Char), (∀ c ∈ l, c ≠ '<') →
      ∀ r, scanElems .out (l ++ r) = scanElems .out r
  | [], _, r => rfl
  | c :: l', h, r => by
    rw [List.cons_append, scanElems_out_cons (h c (by simp)),
      scanElems_out_ltFree l' (fun x hx => h x (by simp [hx])) r]

theorem scanElems_cap_ltFree :
    ∀ (l : List Char) (t : String) (acc : List Char), (∀ c ∈ l, c ≠ '<') →
      ∀ r, scanElems (.cap t acc) (l ++ r) = scanElems (.cap t (l.reverse ++ acc)) r
  | [], t, acc, _, r => by simp
  | c :: l', t, acc, h, r => by
    rw [List.cons_append, scanElems_cap_cons (h c (by simp)),
      scanElems_cap_ltFree l' t (c :: acc) (fun x hx => h x (by simp [hx])) r]
    simp [List.append_assoc]

/-! Escaped text contains no `<` (and no `"`). -/

theorem escChar_not_lt (a : Char) : ∀ c ∈ escChar a, c ≠ '<' := by
  unfold escChar
  split_ifs with h1 h2 h3 h4 h5
  · decide
  · decide
  · decide
  · decide
  · decide
  · intro c hc
    simp at hc
    subst hc
    exact h2

theorem esc_not_lt (s : String) : ∀ c ∈ (esc s).data, c ≠ '<' := by
  intro c hc
  have hc' : c ∈ s.data.flatMap escChar := hc
  obtain ⟨a, _, hmem⟩ := List.mem_flatMap.mp hc'
  exact escChar_not_lt a c hmem

/-- Rewriting-friendly wrappers for scanning an escaped fragment. -/
theorem scan_out_esc (x : String) (r : List Char) :
    scanElems .out ((esc x).data ++ r) = scanElems .out r :=
  scanElems_out_ltFree _ (esc_not_lt x) r

theorem scan_cap_esc (t : String) (acc : List Char) (x : String) (r : List Char) :
    scanElems (.cap t acc) ((esc x).data ++ r) =
      scanElems (.cap t ((esc x).data.reverse ++ acc)) r :=
  scanElems_cap_ltFree _ t acc (esc_not_lt x) r

theorem String_mk_data (s : String) : String.mk s.data = s := rfl

/-! `rstripS` distribution lemmas, used to unfold the `.rstrip()` calls of
the template builders. -/

theorem rstripL_append {a b : List Char}
    (h : b.reverse.dropWhile Char.isWhitespace ≠ []) :
    rstripL (a ++ b) = a ++ rstripL b := by
  rw [rstripL, rstripL, List.reverse_append, List.dropWhile_append,
    if_neg (by simpa using h), List.reverse_append, List.reverse_reverse]

theorem rstripS_append_lit (a : String) {lit lit' : String}
    (h : rstripL lit.data = lit'.data)
    (hne : lit.data.reverse.dropWhile Char.isWhitespace ≠ []) :
    rstripS (a ++ lit) = a ++ lit' := by
  have : rstripL (a ++ lit).data = a.data ++ lit'.data := by
    rw [String.data_append, rstripL_append hne, h]
  rw [rstripS, this]
  rfl

theorem rstripS_append_last_not_ws (a b : String) {c : Char}
    (hc : b.data.getLast? = some c) (hw : Char.isWhitespace c = false) :
    rstripS (a ++ b) = a ++ b := by
  have hbr : b.data.reverse.dropWhile Char.isWhitespace = b.data.reverse := by
    cases hr : b.data.reverse with
    | nil => rfl
    | cons x xs =>
      have hx : b.data.getLast? = some x := by
        rw [List.getLast?_eq_head?_reverse, hr]; rfl
      rw [hx] at hc
      injection hc with hxc
      subst hxc
      rw [List.dropWhile_cons, if_neg (by simp [hw])]
  have hne : b.data.reverse.dropWhile Char.isWhitespace ≠ [] := by
    rw [hbr]
    intro hemp
    rw [List.reverse_eq_nil_iff] at hemp
    rw [hemp] at hc
    simp at hc
  have hid : rstripL b.data = b.data := by
    rw [rstripL, hbr, List.reverse_reverse]
  exact rstripS_append_lit a hid hne

/-! Substring containment (used for the meta-description, canonical-link and
body-content claims). -/

/-- The pattern `p` occurs as a contiguous substring of `l`. -/
def ContainsL (l p : List Char) : Prop := ∃ x y, l = x ++ p ++ y

theorem ContainsL.shift (x : List Char) {l p : List Char}
    (h : ContainsL l p) : ContainsL (x ++ l) p := by
  obtain ⟨a, b, rfl⟩ := h
  exact ⟨x ++ a, b, by simp [List.append_assoc]⟩

theorem ContainsL.here1 (p rest : List Char) : ContainsL (p ++ rest) p :=
  ⟨[], rest, by simp⟩

theorem ContainsL.here2 (a b rest : List Char) :
    ContainsL (a ++ (b ++ rest)) (a ++ b) :=
  ⟨[], rest, by simp [List.append_assoc]⟩

theorem ContainsL.here3 (a b c rest : List Char) :
    ContainsL (a ++ (b ++ (c ++ rest))) ((a ++ b) ++ c) :=
  ⟨[], rest, by simp [List.append_assoc]⟩

theorem serving_ne_empty (city state : String) :
    ¬(("Serving " ++ city ++ ", " ++ state ++ ".") : String) = "" := by
  intro h
  have hl := congrArg String.length h
  rw [String.length_append, String.length_append, String.length_append,
    String.length_append] at hl
  have h8 : ("Serving " : String).length = 8 := by decide
  have h0 : ("" : String).length = 0 := by decide
  rw [h8, h0] at hl
  omega

/-! Scanning the home page's city-links block finds no elements: each link
item is `<li>`/`<a>` markup around escaped text. -/

theorem linkSegA (r : List Char) :
    scanElems ScanMode.out ("<li><a href=\"".data ++ r) = scanElems ScanMode.out r := rfl

theorem linkSegB (r : List Char) :
    scanElems ScanMode.out ("\">".data ++ r) = scanElems ScanMode.out r := rfl

theorem linkSegC (r : List Char) :
    scanElems ScanMode.out (", ".data ++ r) = scanElems ScanMode.out r := rfl

theorem linkSegD (r : List Char) :
    scanElems ScanMode.out ("</a></li>".data ++ r) = scanElems ScanMode.out r := rfl

theorem linkSegE (r : List Char) :
    scanElems ScanMode.out ("\n".data ++ r) = scanElems ScanMode.out r := rfl

theorem scan_out_link_item (cs : String × String) (r : List Char) :
    scanElems ScanMode.out
      (("<li><a href=\"" ++ esc ("/" ++ city_state_slug cs.1 cs.2 ++ "/") ++ "\">" ++
        esc cs.1 ++ ", " ++ esc cs.2 ++ "</a></li>").data ++ r) =
      scanElems ScanMode.out r := by
  simp only [String.data_append, List.append_assoc]
  rw [linkSegA, scan_out_esc, linkSegB, scan_out_esc, linkSegC, scan_out_esc, linkSegD]

theorem scan_out_links_aux :
    ∀ (l : List String),
      (∀ x ∈ l, ∀ r, scanElems ScanMode.out (x.data ++ r) = scanElems ScanMode.out r) →
      ∀ r, scanElems ScanMode.out ((pyJoin "\n" l).data ++ r) = scanElems ScanMode.out r
  | [], _, r => rfl
  | [x], h, r => h x (by simp) r
  | x :: y :: l, h, r => by
    simp only [pyJoin, String.data_append, List.append_assoc]
    rw [h x (by simp), linkSegE]
    exact scan_out_links_aux (y :: l) (fun z hz => h z (by simp [hz])) r

theorem scan_out_links (cities : List (String × String)) (r : List Char) :
    scanElems ScanMode.out ((pyJoin "\n" (cities.map (fun cs =>
      "<li><a href=\"" ++ esc ("/" ++ city_state_slug cs.1 cs.2 ++ "/") ++ "\">" ++
        esc cs.1 ++ ", " ++ esc cs.2 ++ "</a></li>"))).data ++ r) =
      scanElems ScanMode.out r := by
  refine scan_out_links_aux _ (fun x hx r' => ?_) r
  obtain ⟨cs, _, rfl⟩ := List.mem_map.mp hx
  exact scan_out_link_item cs r'
/-! Unfolding lemmas for the `.rstrip()`-wrapped builders: each equals its
piece concatenation with the final literal right-stripped. -/

theorem footer_block_eq (cfg : SiteConfig) :
    footer_block cfg =
      "\n<footer>\n  <div class=\"footer-inner\">\n    <div class=\"footer-cta\">\n      <h2>Next steps</h2>\n      <p class=\"sub\">Ready to move forward? Request a free quote.</p>\n      <div style=\"margin-top:10px\">\n        <a class=\"btn\" href=\"" ++
      esc cfg.cta_href ++
      "\">" ++
      esc cfg.cta_text ++
      "</a>\n      </div>\n    </div>\n\n    <div class=\"footer-links\">\n      <a href=\"/\">Home</a>\n      <a href=\"/cost/\">Cost</a>\n      <a href=\"/how-to/\">How-To</a>\n    </div>\n    <div class=\"small\">© " ++
      esc cfg.brand_name ++
      ". All rights reserved.</div>\n  </div>\n</footer>" := by
  simp only [footer_block]
  exact rstripS_append_lit _ (by decide) (by decide)

theorem header_block_true_eq (cfg : SiteConfig) (h1 sub pill : String) :
    header_block cfg h1 sub pill true =
      "\n<header>\n  <div class=\"hero\">\n    <div class=\"kicker\">\n      <span class=\"pill\"><span class=\"pill-dot\" aria-hidden=\"true\"></span>" ++
      esc pill ++
      "</span>\n    </div>\n    <h1>" ++
      esc h1 ++
      "</h1>\n    <p class=\"sub\">" ++
      esc sub ++
      "</p>\n    <div class=\"hero-cta\">\n      <a class=\"btn\" href=\"" ++
      esc cfg.cta_href ++
      "\">" ++
      esc cfg.cta_text ++
      "</a>\n      " ++
      "<a class=\"ghost\" href=\"/cost/\">See typical pricing</a>" ++
      "\n    </div>\n  </div>\n</header>" := by
  simp only [header_block]
  exact rstripS_append_lit _ (by decide) (by decide)

theorem header_block_false_eq (cfg : SiteConfig) (h1 sub pill : String) :
    header_block cfg h1 sub pill false =
      "\n<header>\n  <div class=\"hero\">\n    <div class=\"kicker\">\n      <span class=\"pill\"><span class=\"pill-dot\" aria-hidden=\"true\"></span>" ++
      esc pill ++
      "</span>\n    </div>\n    <h1>" ++
      esc h1 ++
      "</h1>\n    <p class=\"sub\">" ++
      esc sub ++
      "</p>\n    <div class=\"hero-cta\">\n      <a class=\"btn\" href=\"" ++
      esc cfg.cta_href ++
      "\">" ++
      esc cfg.cta_text ++
      "</a>\n      " ++
      "" ++
      "\n    </div>\n  </div>\n</header>" := by
  simp only [header_block]
  exact rstripS_append_lit _ (by decide) (by decide)

theorem page_shell_eq (cfg : SiteConfig) (h1 sub pill inner_html : String) (b : Bool) :
    page_shell cfg h1 sub pill inner_html b =
      header_block cfg h1 sub pill b ++
      "\n<main>\n  <section class=\"card\">\n    <div class=\"img\">\n      <img src=\"" ++
      esc ("/" ++ cfg.image_filename) ++
      "\" alt=\"Service image\" loading=\"lazy\" />\n    </div>\n    <div class=\"card-inner\">\n      " ++
      inner_html ++
      "\n    </div>\n  </section>\n</main>\n" ++
      footer_block cfg := by
  have hfl : (footer_block cfg).data.getLast? = some '>' := by
    rw [footer_block_eq, String.data_append, getLast?_append_of_ne_nil (by decide)]
    decide
  simp only [page_shell]
  exact rstripS_append_last_not_ws _ _ hfl (by decide)

theorem shared_sections_none_eq :
    shared_sections_html none =
      "\n<h2>" ++
      esc (H2_SHARED.getD 0 "") ++
      "</h2>\n<p>\n  We remove a wasp nest by finding where the wasps enter, treating the nest, and taking it down once activity drops.\n  If you see steady wasp traffic to one spot, that’s usually the nest’s main entrance." ++
      "" ++
      "\n</p>\n<p class=\"muted\">\n  If the nest is high up or you can’t confirm where it sits, don’t poke around—disturbing an active " ++
      esc (ALSO_MENTIONED.getD 7 "") ++
      " is a fast way to get stung.\n</p>\n\n<h2>" ++
      esc (H2_SHARED.getD 1 "") ++
      "</h2>\n<p>\n  Wasp control is about preventing repeat activity after the nest is handled. That usually means checking common rebuild spots\n  and reducing easy access points—small gaps, sheltered ledges, and other places a new nest can get started.\n</p>\n\n<h2>" ++
      esc (H2_SHARED.getD 2 "") ++
      "</h2>\n<p>\n  A wasp exterminator is the right call when access is risky or the nest is in a tight void. If you’re worried about " ++
      esc (ALSO_MENTIONED.getD 4 "") ++
      ",\n  getting it handled safely is the smarter move.\n</p>\n\n<h2>" ++
      esc (H2_SHARED.getD 3 "") ++
      "</h2>\n<p>\n  Paper wasp nest removal is often needed under eaves and overhangs where nests stay dry and protected. The nest can look small from the ground,\n  but activity level is the better clue—heavy traffic usually means a larger colony than it appears.\n</p>\n\n<h2>" ++
      esc (H2_SHARED.getD 4 "") ++
      "</h2>\n<p>\n  Ground wasp nest removal is different because the entrance can be a small hole and the nest can spread under the soil.\n  Treating the wrong spot can make the area “hot” with defensive wasps, so approach and timing matter more here than almost anywhere else.\n</p>\n\n<h2>" ++
      esc (H2_SHARED.getD 5 "") ++
      "</h2>\n<p>\n  Wasp removal is the hands-on work: locate the nest, treat it, and confirm activity drops. Spraying random surfaces doesn’t solve the problem—the nest does.\n  If you keep seeing wasps returning to the same spot, you’re missing the actual entrance.\n</p>" := by
  simp only [shared_sections_html]
  exact rstripS_append_lit _ (by decide) (by decide)

theorem shared_sections_some_eq (t : String) (h : ¬t = "") :
    shared_sections_html (some t) =
      "\n<h2>" ++
      esc (H2_SHARED.getD 0 "") ++
      "</h2>\n<p>\n  We remove a wasp nest by finding where the wasps enter, treating the nest, and taking it down once activity drops.\n  If you see steady wasp traffic to one spot, that’s usually the nest’s main entrance." ++
      (" <span class=\"muted\">" ++
        esc t ++
        "</span>") ++
      "\n</p>\n<p class=\"muted\">\n  If the nest is high up or you can’t confirm where it sits, don’t poke around—disturbing an active " ++
      esc (ALSO_MENTIONED.getD 7 "") ++
      " is a fast way to get stung.\n</p>\n\n<h2>" ++
      esc (H2_SHARED.getD 1 "") ++
      "</h2>\n<p>\n  Wasp control is about preventing repeat activity after the nest is handled. That usually means checking common rebuild spots\n  and reducing easy access points—small gaps, sheltered ledges, and other places a new nest can get started.\n</p>\n\n<h2>" ++
      esc (H2_SHARED.getD 2 "") ++
      "</h2>\n<p>\n  A wasp exterminator is the right call when access is risky or the nest is in a tight void. If you’re worried about " ++
      esc (ALSO_MENTIONED.getD 4 "") ++
      ",\n  getting it handled safely is the smarter move.\n</p>\n\n<h2>" ++
      esc (H2_SHARED.getD 3 "") ++
      "</h2>\n<p>\n  Paper wasp nest removal is often needed under eaves and overhangs where nests stay dry and protected. The nest can look small from the ground,\n  but activity level is the better clue—heavy traffic usually means a larger colony than it appears.\n</p>\n\n<h2>" ++
      esc (H2_SHARED.getD 4 "") ++
      "</h2>\n<p>\n  Ground wasp nest removal is different because the entrance can be a small hole and the nest can spread under the soil.\n  Treating the wrong spot can make the area “hot” with defensive wasps, so approach and timing matter more here than almost anywhere else.\n</p>\n\n<h2>" ++
      esc (H2_SHARED.getD 5 "") ++
      "</h2>\n<p>\n  Wasp removal is the hands-on work: locate the nest, treat it, and confirm activity drops. Spraying random surfaces doesn’t solve the problem—the nest does.\n  If you keep seeing wasps returning to the same spot, you’re missing the actual entrance.\n</p>" := by
  simp only [shared_sections_html]
  rw [if_neg h]
  exact rstripS_append_lit _ (by decide) (by decide)

theorem cost_sections_eq (cfg : SiteConfig) :
    cost_sections_html cfg =
      "\n<h2>" ++
      esc (H2_COST.getD 0 "") ++
      "</h2>\n<p>\n  Wasp nest removal cost depends mostly on access and nest location. A visible nest under an eave is typically quicker than one tucked into a structure.\n</p>\n\n<h2>" ++
      esc (H2_COST.getD 1 "") ++
      "</h2>\n<p>\n  Most homeowners pay somewhere between $" ++
      (toString cfg.cost_low) ++
      " and $" ++
      (toString cfg.cost_high) ++
      " for a single nest removal.\n  High nests, hidden nests, and extra time on site are what usually push the total higher.\n</p>\n\n<h2>" ++
      esc (H2_COST.getD 2 "") ++
      "</h2>\n<p>\n  The cost of wasp nest removal moves with labor time and risk. Bigger nests, awkward rooflines, and repeated trips are common drivers behind a higher " ++
      esc (ALSO_MENTIONED.getD 5 "") ++
      ".\n</p>\n\n<h2>" ++
      esc (H2_COST.getD 3 "") ++
      "</h2>\n<p>\n  Wasp removal cost can be lower when the nest is small and easy to access, and higher when it’s established and defensive.\n  If the nest has already been disturbed, the job can take longer because the wasps are more aggressive.\n</p>\n\n<h2>" ++
      esc (H2_COST.getD 4 "") ++
      "</h2>\n<p>\n  Wasp nest removal price is basically the same question as “cost,” just phrased differently. What matters is whether the nest is simple to reach and remove,\n  or whether it needs special handling for safety.\n</p>\n\n<h2>" ++
      esc (H2_COST.getD 5 "") ++
      "</h2>\n<p>\n  Hornet nest removal cost is often higher because hornet nests can be larger and more defensive, and they’re frequently placed higher or deeper in sheltered areas.\n</p>\n\n<hr />\n\n<p class=\"muted\">\n  Typical installed range (single nest, many homes): $" ++
      (toString cfg.cost_low) ++
      "–$" ++
      (toString cfg.cost_high) ++
      ". Final pricing depends on access, nest location, and time on site.\n</p>" := by
  simp only [cost_sections_html]
  exact rstripS_append_lit _ (by decide) (by decide)

theorem howto_sections_eq :
    howto_sections_html =
      "\n<h2>" ++
      esc (H2_HOWTO.getD 0 "") ++
      "</h2>\n<p>\n  To get rid of a wasp nest, don’t provoke it first. The safest plan is to identify the entrance, keep people and pets away, and treat the nest when activity is low.\n  If you can’t clearly see the nest or it’s high up, skip this and call a pro.\n</p>\n\n<h2>" ++
      esc (H2_HOWTO.getD 1 "") ++
      "</h2>\n<p>\n  To remove a wasp nest, you treat it first and only take it down once activity drops. Pulling down an active nest is what triggers defensive behavior and increases the risk of " ++
      esc (ALSO_MENTIONED.getD 4 "") ++
      ".\n</p>\n\n<h2>" ++
      esc (H2_HOWTO.getD 2 "") ++
      "</h2>\n<p>\n  “Remove wasp nest” really means removing the source of activity, not just spraying around. If wasps keep returning to the same spot, the nest entrance is still active.\n</p>\n\n<h2>" ++
      esc (H2_HOWTO.getD 3 "") ++
      "</h2>\n<p>\n  The best time to spray a wasp nest is when activity is low and fewer wasps are flying in and out. Bad timing can make the nest more defensive and the situation worse.\n</p>\n\n<h2>" ++
      esc (H2_HOWTO.getD 4 "") ++
      "</h2>\n<p>\n  Wasp spray only helps if you can safely hit the nest and follow directions. Improvising with a " ++
      esc (ALSO_MENTIONED.getD 2 "") ++
      " or mixing products can create safety issues—don’t do that.\n</p>\n\n<h2>" ++
      esc (H2_HOWTO.getD 5 "") ++
      "</h2>\n<p>\n  What kills wasps depends on the product and direct contact, but the bigger point is targeting the nest. If you can’t safely reach it,\n  trying to “solve it from a distance” usually just spreads activity and increases sting risk.\n</p>" := by
  simp only [howto_sections_html]
  exact rstripS_append_lit _ (by decide) (by decide)

theorem cost_callout_eq (cfg : SiteConfig) (city state : String) :
    cost_callout_html cfg city state =
      "\n<div class=\"callout\" role=\"note\" aria-label=\"Typical pricing callout\">\n  <div>\n    <strong>Typical cost range in " ++
      esc city ++
      ", " ++
      esc state ++
      "</strong>\n    <p>$" ++
      (toString cfg.cost_low) ++
      "–$" ++
      (toString cfg.cost_high) ++
      " for one nest in many homes. Access &amp; nest location drive the final total.</p>\n  </div>\n  <div>\n    <a class=\"btn\" href=\"" ++
      esc cfg.cta_href ++
      "\">" ++
      esc cfg.cta_text ++
      "</a>\n  </div>\n</div>" := by
  simp only [cost_callout_html]
  exact rstripS_append_lit _ (by decide) (by decide)

theorem nav_html_home_eq (cfg : SiteConfig) :
    nav_html cfg "home" =
      "<nav class=\"nav\" aria-label=\"Primary navigation\">" ++
      ("<a href=\"" ++ esc "/" ++ "\"" ++ " aria-current=\"page\"" ++ ">" ++ esc "Home" ++ "</a>") ++
      ("<a href=\"" ++ esc "/cost/" ++ "\"" ++ "" ++ ">" ++ esc "Cost" ++ "</a>") ++
      ("<a href=\"" ++ esc "/how-to/" ++ "\"" ++ "" ++ ">" ++ esc "How-To" ++ "</a>") ++
      "<a class=\"btn\" href=\"" ++ esc cfg.cta_href ++ "\">" ++ esc cfg.cta_text ++ "</a>" ++
      "</nav>" := rfl

theorem nav_html_cost_eq (cfg : SiteConfig) :
    nav_html cfg "cost" =
      "<nav class=\"nav\" aria-label=\"Primary navigation\">" ++
      ("<a href=\"" ++ esc "/" ++ "\"" ++ "" ++ ">" ++ esc "Home" ++ "</a>") ++
      ("<a href=\"" ++ esc "/cost/" ++ "\"" ++ " aria-current=\"page\"" ++ ">" ++ esc "Cost" ++ "</a>") ++
      ("<a href=\"" ++ esc "/how-to/" ++ "\"" ++ "" ++ ">" ++ esc "How-To" ++ "</a>") ++
      "<a class=\"btn\" href=\"" ++ esc cfg.cta_href ++ "\">" ++ esc cfg.cta_text ++ "</a>" ++
      "</nav>" := rfl

theorem nav_html_howto_eq (cfg : SiteConfig) :
    nav_html cfg "howto" =
      "<nav class=\"nav\" aria-label=\"Primary navigation\">" ++
      ("<a href=\"" ++ esc "/" ++ "\"" ++ "" ++ ">" ++ esc "Home" ++ "</a>") ++
      ("<a href=\"" ++ esc "/cost/" ++ "\"" ++ "" ++ ">" ++ esc "Cost" ++ "</a>") ++
      ("<a href=\"" ++ esc "/how-to/" ++ "\"" ++ " aria-current=\"page\"" ++ ">" ++ esc "How-To" ++ "</a>") ++
      "<a class=\"btn\" href=\"" ++ esc cfg.cta_href ++ "\">" ++ esc cfg.cta_text ++ "</a>" ++
      "</nav>" := rfl
theorem home_page_data_eq (cities : List (String × String)) :
    (homepage_html CONFIG cities).data =
      "<!doctype html>\n<html lang=\"en\">\n<head>\n  <meta charset=\"utf-8\" />\n  <meta name=\"viewport\" content=\"width=device-width, initial-scale=1\" />\n  <title>".data ++
      ((esc (clamp_title CONFIG.service_name 70)).data ++
      ("</title>\n  <meta name=\"description\" content=\"".data ++
      ((esc (clamp_title "Straight answers on wasp nest removal and wasp control." 155)).data ++
      ("\" />\n  <link rel=\"canonical\" href=\"".data ++
      ((esc "/").data ++
      ("\" />\n  <style>\n".data ++
      (cssPart1.data ++
      (cssPart2.data ++
      (cssPart3.data ++
      (cssPart4.data ++
      (cssPart5.data ++
      (cssPart6.data ++
      (cssPart7.data ++
      (cssPart8.data ++
      (cssPart9.data ++
      (cssPart10.data ++
      (cssPart11.data ++
      (cssPart12.data ++
      ("\n  </style>\n</head>\n<body>\n  <div class=\"topbar\">\n    <div class=\"topbar-inner\">\n      <a class=\"brand\" href=\"/\">\n        <span class=\"brand-mark\" aria-hidden=\"true\"></span>\n        <span>".data ++
      ((esc CONFIG.brand_name).data ++
      ("</span>\n      </a>\n      ".data ++
      ("<nav class=\"nav\" aria-label=\"Primary navigation\">".data ++
      ("<a href=\"".data ++
      ((esc "/").data ++
      ("\"".data ++
      (" aria-current=\"page\"".data ++
      (">".data ++
      ((esc "Home").data ++
      ("</a>".data ++
      ("<a href=\"".data ++
      ((esc "/cost/").data ++
      ("\"".data ++
      ("".data ++
      (">".data ++
      ((esc "Cost").data ++
      ("</a>".data ++
      ("<a href=\"".data ++
      ((esc "/how-to/").data ++
      ("\"".data ++
      ("".data ++
      (">".data ++
      ((esc "How-To").data ++
      ("</a>".data ++
      ("<a class=\"btn\" href=\"".data ++
      ((esc CONFIG.cta_href).data ++
      ("\">".data ++
      ((esc CONFIG.cta_text).data ++
      ("</a>".data ++
      ("</nav>".data ++
      ("\n    </div>\n  </div>\n".data ++
      ("\n<header>\n  <div class=\"hero\">\n    <div class=\"kicker\">\n      <span class=\"pill\"><span class=\"pill-dot\" aria-hidden=\"true\"></span>".data ++
      ((esc "Main service page").data ++
      ("</span>\n    </div>\n    <h1>".data ++
      ((esc (clamp_title CONFIG.service_name 70)).data ++
      ("</h1>\n    <p class=\"sub\">".data ++
      ((esc "How removal works, what prevents repeat activity, and when to call help.").data ++
      ("</p>\n    <div class=\"hero-cta\">\n      <a class=\"btn\" href=\"".data ++
      ((esc CONFIG.cta_href).data ++
      ("\">".data ++
      ((esc CONFIG.cta_text).data ++
      ("</a>\n      ".data ++
      ("<a class=\"ghost\" href=\"/cost/\">See typical pricing</a>".data ++
      ("\n    </div>\n  </div>\n</header>".data ++
      ("\n<main>\n  <section class=\"card\">\n    <div class=\"img\">\n      <img src=\"".data ++
      ((esc ("/" ++ CONFIG.image_filename)).data ++
      ("\" alt=\"Service image\" loading=\"lazy\" />\n    </div>\n    <div class=\"card-inner\">\n      ".data ++
      ("\n<h2>".data ++
      ((esc (H2_SHARED.getD 0 "")).data ++
      ("</h2>\n<p>\n  We remove a wasp nest by finding where the wasps enter, treating the nest, and taking it down once activity drops.\n  If you see steady wasp traffic to one spot, that’s usually the nest’s main entrance.".data ++
      ("".data ++
      ("\n</p>\n<p class=\"muted\">\n  If the nest is high up or you can’t confirm where it sits, don’t poke around—disturbing an active ".data ++
      ((esc (ALSO_MENTIONED.getD 7 "")).data ++
      (" is a fast way to get stung.\n</p>\n\n<h2>".data ++
      ((esc (H2_SHARED.getD 1 "")).data ++
      ("</h2>\n<p>\n  Wasp control is about preventing repeat activity after the nest is handled. That usually means checking common rebuild spots\n  and reducing easy access points—small gaps, sheltered ledges, and other places a new nest can get started.\n</p>\n\n<h2>".data ++
      ((esc (H2_SHARED.getD 2 "")).data ++
      ("</h2>\n<p>\n  A wasp exterminator is the right call when access is risky or the nest is in a tight void. If you’re worried about ".data ++
      ((esc (ALSO_MENTIONED.getD 4 "")).data ++
      (",\n  getting it handled safely is the smarter move.\n</p>\n\n<h2>".data ++
      ((esc (H2_SHARED.getD 3 "")).data ++
      ("</h2>\n<p>\n  Paper wasp nest removal is often needed under eaves and overhangs where nests stay dry and protected. The nest can look small from the ground,\n  but activity level is the better clue—heavy traffic usually means a larger colony than it appears.\n</p>\n\n<h2>".data ++
      ((esc (H2_SHARED.getD 4 "")).data ++
      ("</h2>\n<p>\n  Ground wasp nest removal is different because the entrance can be a small hole and the nest can spread under the soil.\n  Treating the wrong spot can make the area “hot” with defensive wasps, so approach and timing matter more here than almost anywhere else.\n</p>\n\n<h2>".data ++
      ((esc (H2_SHARED.getD 5 "")).data ++
      ("</h2>\n<p>\n  Wasp removal is the hands-on work: locate the nest, treat it, and confirm activity drops. Spraying random surfaces doesn’t solve the problem—the nest does.\n  If you keep seeing wasps returning to the same spot, you’re missing the actual entrance.\n</p>".data ++
      ("\n<hr />\n<p class=\"muted\" style=\"margin-bottom:10px; font-weight:900; letter-spacing:-0.01em;\">\n  Choose your city\n</p>\n<p class=\"muted\">Select a city page for the same guide with a light local line.</p>\n<ul class=\"city-grid\">\n".data ++
      ((pyJoin "\n" (cities.map (fun cs => "<li><a href=\"" ++ esc ("/" ++ city_state_slug cs.1 cs.2 ++ "/") ++ "\">" ++ esc cs.1 ++ ", " ++ esc cs.2 ++ "</a></li>"))).data ++
      ("\n</ul>\n<hr />\n<p class=\"muted\">\n  Also available: <a href=\"/cost/\">Wasp Nest Removal Cost</a> and <a href=\"/how-to/\">How to Get Rid of Wasp Nest</a>.\n</p>\n".data ++
      ("\n    </div>\n  </section>\n</main>\n".data ++
      ("\n<footer>\n  <div class=\"footer-inner\">\n    <div class=\"footer-cta\">\n      <h2>Next steps</h2>\n      <p class=\"sub\">Ready to move forward? Request a free quote.</p>\n      <div style=\"margin-top:10px\">\n        <a class=\"btn\" href=\"".data ++
      ((esc CONFIG.cta_href).data ++
      ("\">".data ++
      ((esc CONFIG.cta_text).data ++
      ("</a>\n      </div>\n    </div>\n\n    <div class=\"footer-links\">\n      <a href=\"/\">Home</a>\n      <a href=\"/cost/\">Cost</a>\n      <a href=\"/how-to/\">How-To</a>\n    </div>\n    <div class=\"small\">© ".data ++
      ((esc CONFIG.brand_name).data ++
      (". All rights reserved.</div>\n  </div>\n</footer>".data ++
      ("\n</body>\n</html>\n".data))))))))))))))))))))))))))))))))))))))))))))))))))))))))))))))))))))))))))))))))))))))))))))))))) := by
  simp only [homepage_html, make_page, base_html, page_shell_eq, footer_block_eq, CSS, String.data_append, List.append_assoc, header_block_true_eq, shared_sections_none_eq, nav_html_home_eq]

theorem scanSeg1 (r : List Char) :
    scanElems ScanMode.out
      ("<!doctype html>\n<html lang=\"en\">\n<head>\n  <meta charset=\"utf-8\" />\n  <meta name=\"viewport\" content=\"width=device-width, initial-scale=1\" />\n  <title>".data ++
      ((esc (clamp_title CONFIG.service_name 70)).data ++
      ("</title>\n  <meta name=\"description\" content=\"".data ++
      ((esc (clamp_title "Straight answers on wasp nest removal and wasp control." 155)).data ++
      ("\" />\n  <link rel=\"canonical\" href=\"".data ++ ((esc "/").data ++ ("\" />\n  <style>\n".data ++ (r)))))))) =
      ("title", "Wasp Nest/Wasp Hive Removal &amp; Wasp Control Services") ::
      scanElems ScanMode.out r := rfl

theorem scanSeg2 (r : List Char) :
    scanElems ScanMode.out
      (cssPart1.data ++ (r)) =
      scanElems ScanMode.out r := rfl

theorem scanSeg3 (r : List Char) :
    scanElems ScanMode.out
      (cssPart2.data ++ (r)) =
      scanElems ScanMode.out r := rfl

theorem scanSeg4 (r : List Char) :
    scanElems ScanMode.out
      (cssPart3.data ++ (r)) =
      scanElems ScanMode.out r := rfl

theorem scanSeg5 (r : List Char) :
    scanElems ScanMode.out
      (cssPart4.data ++ (r)) =
      scanElems ScanMode.out r := rfl

theorem scanSeg6 (r : List Char) :
    scanElems ScanMode.out
      (cssPart5.data ++ (r)) =
      scanElems ScanMode.out r := rfl

theorem scanSeg7 (r : List Char) :
    scanElems ScanMode.out
      (cssPart6.data ++ (r)) =
      scanElems ScanMode.out r := rfl

theorem scanSeg8 (r : List Char) :
    scanElems ScanMode.out
      (cssPart7.data ++ (r)) =
      scanElems ScanMode.out r := rfl

theorem scanSeg9 (r : List Char) :
    scanElems ScanMode.out
      (cssPart8.data ++ (r)) =
      scanElems ScanMode.out r := rfl

theorem scanSeg10 (r : List Char) :
    scanElems ScanMode.out
      (cssPart9.data ++ (r)) =
      scanElems ScanMode.out r := rfl

theorem scanSeg11 (r : List Char) :
    scanElems ScanMode.out
      (cssPart10.data ++ (r)) =
      scanElems ScanMode.out r := rfl

theorem scanSeg12 (r : List Char) :
    scanElems ScanMode.out
      (cssPart11.data ++ (r)) =
      scanElems ScanMode.out r := rfl

theorem scanSeg13 (r : List Char) :
    scanElems ScanMode.out
      (cssPart12.data ++ (r)) =
      scanElems ScanMode.out r := rfl

theorem scanSeg14 (r : List Char) :
    scanElems ScanMode.out
      ("\n  </style>\n</head>\n<body>\n  <div class=\"topbar\">\n    <div class=\"topbar-inner\">\n      <a class=\"brand\" href=\"/\">\n        <span class=\"brand-mark\" aria-hidden=\"true\"></span>\n        <span>".data ++
      ((esc CONFIG.brand_name).data ++
      ("</span>\n      </a>\n      ".data ++
      ("<nav class=\"nav\" aria-label=\"Primary navigation\">".data ++
      ("<a href=\"".data ++
      ((esc "/").data ++
      ("\"".data ++
      (" aria-current=\"page\"".data ++
      (">".data ++
      ((esc "Home").data ++
      ("</a>".data ++
      ("<a href=\"".data ++
      ((esc "/cost/").data ++
      ("\"".data ++
      ("".data ++
      (">".data ++
      ((esc "Cost").data ++
      ("</a>".data ++
      ("<a href=\"".data ++
      ((esc "/how-to/").data ++
      ("\"".data ++
      ("".data ++
      (">".data ++
      ((esc "How-To").data ++
      ("</a>".data ++
      ("<a class=\"btn\" href=\"".data ++
      ((esc CONFIG.cta_href).data ++
      ("\">".data ++
      ((esc CONFIG.cta_text).data ++
      ("</a>".data ++
      ("</nav>".data ++
      ("\n    </div>\n  </div>\n".data ++
      ("\n<header>\n  <div class=\"hero\">\n    <div class=\"kicker\">\n      <span class=\"pill\"><span class=\"pill-dot\" aria-hidden=\"true\"></span>".data ++ (r)))))))))))))))))))))))))))))))))) =
      scanElems ScanMode.out r := rfl

theorem scanSeg15 (r : List Char) :
    scanElems ScanMode.out
      ((esc "Main service page").data ++
      ("</span>\n    </div>\n    <h1>".data ++
      ((esc (clamp_title CONFIG.service_name 70)).data ++
      ("</h1>\n    <p class=\"sub\">".data ++
      ((esc "How removal works, what prevents repeat activity, and when to call help.").data ++
      ("</p>\n    <div class=\"hero-cta\">\n      <a class=\"btn\" href=\"".data ++
      ((esc CONFIG.cta_href).data ++
      ("\">".data ++
      ((esc CONFIG.cta_text).data ++
      ("</a>\n      ".data ++
      ("<a class=\"ghost\" href=\"/cost/\">See typical pricing</a>".data ++
      ("\n    </div>\n  </div>\n</header>".data ++
      ("\n<main>\n  <section class=\"card\">\n    <div class=\"img\">\n      <img src=\"".data ++
      ((esc ("/" ++ CONFIG.image_filename)).data ++
      ("\" alt=\"Service image\" loading=\"lazy\" />\n    </div>\n    <div class=\"card-inner\">\n      ".data ++
      ("\n<h2>".data ++
      ((esc (H2_SHARED.getD 0 "")).data ++
      ("</h2>\n<p>\n  We remove a wasp nest by finding where the wasps enter, treating the nest, and taking it down once activity drops.\n  If you see steady wasp traffic to one spot, that’s usually the nest’s main entrance.".data ++ (r))))))))))))))))))) =
      ("h1", "Wasp Nest/Wasp Hive Removal &amp; Wasp Control Services") ::
      ("h2", "Wasp Nest Removal") ::
      scanElems ScanMode.out r := rfl

theorem scanSeg16 (r : List Char) :
    scanElems ScanMode.out
      ("".data ++
      ("\n</p>\n<p class=\"muted\">\n  If the nest is high up or you can’t confirm where it sits, don’t poke around—disturbing an active ".data ++
      ((esc (ALSO_MENTIONED.getD 7 "")).data ++
      (" is a fast way to get stung.\n</p>\n\n<h2>".data ++
      ((esc (H2_SHARED.getD 1 "")).data ++
      ("</h2>\n<p>\n  Wasp control is about preventing repeat activity after the nest is handled. That usually means checking common rebuild spots\n  and reducing easy access points—small gaps, sheltered ledges, and other places a new nest can get started.\n</p>\n\n<h2>".data ++
      ((esc (H2_SHARED.getD 2 "")).data ++
      ("</h2>\n<p>\n  A wasp exterminator is the right call when access is risky or the nest is in a tight void. If you’re worried about ".data ++ ((esc (ALSO_MENTIONED.getD 4 "")).data ++ (r)))))))))) =
      ("h2", "Wasp Control") ::
      ("h2", "Wasp Exterminator") ::
      scanElems ScanMode.out r := rfl

theorem scanSeg17 (r : List Char) :
    scanElems ScanMode.out
      (",\n  getting it handled safely is the smarter move.\n</p>\n\n<h2>".data ++
      ((esc (H2_SHARED.getD 3 "")).data ++
      ("</h2>\n<p>\n  Paper wasp nest removal is often needed under eaves and overhangs where nests stay dry and protected. The nest can look small from the ground,\n  but activity level is the better clue—heavy traffic usually means a larger colony than it appears.\n</p>\n\n<h2>".data ++
      ((esc (H2_SHARED.getD 4 "")).data ++
      ("</h2>\n<p>\n  Ground wasp nest removal is different because the entrance can be a small hole and the nest can spread under the soil.\n  Treating the wrong spot can make the area “hot” with defensive wasps, so approach and timing matter more here than almost anywhere else.\n</p>\n\n<h2>".data ++ (r)))))) =
      ("h2", "Paper Wasp Nest Removal") ::
      ("h2", "Ground Wasp Nest Removal") ::
      scanElems (ScanMode.cap "h2" []) r := rfl

theorem scanSeg18 (r : List Char) :
    scanElems (ScanMode.cap "h2" [])
      ((esc (H2_SHARED.getD 5 "")).data ++
      ("</h2>\n<p>\n  Wasp removal is the hands-on work: locate the nest, treat it, and confirm activity drops. Spraying random surfaces doesn’t solve the problem—the nest does.\n  If you keep seeing wasps returning to the same spot, you’re missing the actual entrance.\n</p>".data ++
      ("\n<hr />\n<p class=\"muted\" style=\"margin-bottom:10px; font-weight:900; letter-spacing:-0.01em;\">\n  Choose your city\n</p>\n<p class=\"muted\">Select a city page for the same guide with a light local line.</p>\n<ul class=\"city-grid\">\n".data ++ (r)))) =
      ("h2", "Wasp Removal") ::
      scanElems ScanMode.out r := rfl

theorem scanSeg19 (r : List Char) :
    scanElems ScanMode.out
      ("\n</ul>\n<hr />\n<p class=\"muted\">\n  Also available: <a href=\"/cost/\">Wasp Nest Removal Cost</a> and <a href=\"/how-to/\">How to Get Rid of Wasp Nest</a>.\n</p>\n".data ++
      ("\n    </div>\n  </section>\n</main>\n".data ++
      ("\n<footer>\n  <div class=\"footer-inner\">\n    <div class=\"footer-cta\">\n      <h2>Next steps</h2>\n      <p class=\"sub\">Ready to move forward? Request a free quote.</p>\n      <div style=\"margin-top:10px\">\n        <a class=\"btn\" href=\"".data ++
      ((esc CONFIG.cta_href).data ++ ("\">".data ++ ((esc CONFIG.cta_text).data ++ (r))))))) =
      ("h2", "Next steps") ::
      scanElems ScanMode.out r := rfl

theorem scanSeg20 :
    scanElems ScanMode.out
      ("</a>\n      </div>\n    </div>\n\n    <div class=\"footer-links\">\n      <a href=\"/\">Home</a>\n      <a href=\"/cost/\">Cost</a>\n      <a href=\"/how-to/\">How-To</a>\n    </div>\n    <div class=\"small\">© ".data ++
      ((esc CONFIG.brand_name).data ++
      (". All rights reserved.</div>\n  </div>\n</footer>".data ++ ("\n</body>\n</html>\n".data)))) =
      [] := rfl

theorem home_page_scan (cities : List (String × String)) :
    scanElems ScanMode.out (homepage_html CONFIG cities).data =
      [("title", "Wasp Nest/Wasp Hive Removal &amp; Wasp Control Services"),
      ("h1", "Wasp Nest/Wasp Hive Removal &amp; Wasp Control Services"),
      ("h2", "Wasp Nest Removal"),
      ("h2", "Wasp Control"),
      ("h2", "Wasp Exterminator"),
      ("h2", "Paper Wasp Nest Removal"),
      ("h2", "Ground Wasp Nest Removal"),
      ("h2", "Wasp Removal"),
      ("h2", "Next steps")] := by
  rw [home_page_data_eq, scanSeg1, scanSeg2, scanSeg3, scanSeg4, scanSeg5, scanSeg6, scanSeg7, scanSeg8, scanSeg9, scanSeg10, scanSeg11, scanSeg12, scanSeg13, scanSeg14, scanSeg15, scanSeg16, scanSeg17, scanSeg18, scan_out_links, scanSeg19, scanSeg20]

theorem cost_page_data_eq :
    (cost_page_html CONFIG).data =
      "<!doctype html>\n<html lang=\"en\">\n<head>\n  <meta charset=\"utf-8\" />\n  <meta name=\"viewport\" content=\"width=device-width, initial-scale=1\" />\n  <title>".data ++
      ((esc (clamp_title "Wasp Nest Removal Cost Services" 70)).data ++
      ("</title>\n  <meta name=\"description\" content=\"".data ++
      ((esc (clamp_title "Typical wasp nest removal cost ranges and what changes pricing." 155)).data ++
      ("\" />\n  <link rel=\"canonical\" href=\"".data ++
      ((esc "/cost/").data ++
      ("\" />\n  <style>\n".data ++
      (cssPart1.data ++
      (cssPart2.data ++
      (cssPart3.data ++
      (cssPart4.data ++
      (cssPart5.data ++
      (cssPart6.data ++
      (cssPart7.data ++
      (cssPart8.data ++
      (cssPart9.data ++
      (cssPart10.data ++
      (cssPart11.data ++
      (cssPart12.data ++
      ("\n  </style>\n</head>\n<body>\n  <div class=\"topbar\">\n    <div class=\"topbar-inner\">\n      <a class=\"brand\" href=\"/\">\n        <span class=\"brand-mark\" aria-hidden=\"true\"></span>\n        <span>".data ++
      ((esc CONFIG.brand_name).data ++
      ("</span>\n      </a>\n      ".data ++
      ("<nav class=\"nav\" aria-label=\"Primary navigation\">".data ++
      ("<a href=\"".data ++
      ((esc "/").data ++
      ("\"".data ++
      ("".data ++
      (">".data ++
      ((esc "Home").data ++
      ("</a>".data ++
      ("<a href=\"".data ++
      ((esc "/cost/").data ++
      ("\"".data ++
      (" aria-current=\"page\"".data ++
      (">".data ++
      ((esc "Cost").data ++
      ("</a>".data ++
      ("<a href=\"".data ++
      ((esc "/how-to/").data ++
      ("\"".data ++
      ("".data ++
      (">".data ++
      ((esc "How-To").data ++
      ("</a>".data ++
      ("<a class=\"btn\" href=\"".data ++
      ((esc CONFIG.cta_href).data ++
      ("\">".data ++
      ((esc CONFIG.cta_text).data ++
      ("</a>".data ++
      ("</nav>".data ++
      ("\n    </div>\n  </div>\n".data ++
      ("\n<header>\n  <div class=\"hero\">\n    <div class=\"kicker\">\n      <span class=\"pill\"><span class=\"pill-dot\" aria-hidden=\"true\"></span>".data ++
      ((esc "Cost page").data ++
      ("</span>\n    </div>\n    <h1>".data ++
      ((esc (clamp_title "Wasp Nest Removal Cost Services" 70)).data ++
      ("</h1>\n    <p class=\"sub\">".data ++
      ((esc "Simple ranges and the factors that usually move the price.").data ++
      ("</p>\n    <div class=\"hero-cta\">\n      <a class=\"btn\" href=\"".data ++
      ((esc CONFIG.cta_href).data ++
      ("\">".data ++
      ((esc CONFIG.cta_text).data ++
      ("</a>\n      ".data ++
      ("".data ++
      ("\n    </div>\n  </div>\n</header>".data ++
      ("\n<main>\n  <section class=\"card\">\n    <div class=\"img\">\n      <img src=\"".data ++
      ((esc ("/" ++ CONFIG.image_filename)).data ++
      ("\" alt=\"Service image\" loading=\"lazy\" />\n    </div>\n    <div class=\"card-inner\">\n      ".data ++
      ("\n<h2>".data ++
      ((esc (H2_COST.getD 0 "")).data ++
      ("</h2>\n<p>\n  Wasp nest removal cost depends mostly on access and nest location. A visible nest under an eave is typically quicker than one tucked into a structure.\n</p>\n\n<h2>".data ++
      ((esc (H2_COST.getD 1 "")).data ++
      ("</h2>\n<p>\n  Most homeowners pay somewhere between $".data ++
      ((toString CONFIG.cost_low).data ++
      (" and $".data ++
      ((toString CONFIG.cost_high).data ++
      (" for a single nest removal.\n  High nests, hidden nests, and extra time on site are what usually push the total higher.\n</p>\n\n<h2>".data ++
      ((esc (H2_COST.getD 2 "")).data ++
      ("</h2>\n<p>\n  The cost of wasp nest removal moves with labor time and risk. Bigger nests, awkward rooflines, and repeated trips are common drivers behind a higher ".data ++
      ((esc (ALSO_MENTIONED.getD 5 "")).data ++
      (".\n</p>\n\n<h2>".data ++
      ((esc (H2_COST.getD 3 "")).data ++
      ("</h2>\n<p>\n  Wasp removal cost can be lower when the nest is small and easy to access, and higher when it’s established and defensive.\n  If the nest has already been disturbed, the job can take longer because the wasps are more aggressive.\n</p>\n\n<h2>".data ++
      ((esc (H2_COST.getD 4 "")).data ++
      ("</h2>\n<p>\n  Wasp nest removal price is basically the same question as “cost,” just phrased differently. What matters is whether the nest is simple to reach and remove,\n  or whether it needs special handling for safety.\n</p>\n\n<h2>".data ++
      ((esc (H2_COST.getD 5 "")).data ++
      ("</h2>\n<p>\n  Hornet nest removal cost is often higher because hornet nests can be larger and more defensive, and they’re frequently placed higher or deeper in sheltered areas.\n</p>\n\n<hr />\n\n<p class=\"muted\">\n  Typical installed range (single nest, many homes): $".data ++
      ((toString CONFIG.cost_low).data ++
      ("–$".data ++
      ((toString CONFIG.cost_high).data ++
      (". Final pricing depends on access, nest location, and time on site.\n</p>".data ++
      ("\n    </div>\n  </section>\n</main>\n".data ++
      ("\n<footer>\n  <div class=\"footer-inner\">\n    <div class=\"footer-cta\">\n      <h2>Next steps</h2>\n      <p class=\"sub\">Ready to move forward? Request a free quote.</p>\n      <div style=\"margin-top:10px\">\n        <a class=\"btn\" href=\"".data ++
      ((esc CONFIG.cta_href).data ++
      ("\">".data ++
      ((esc CONFIG.cta_text).data ++
      ("</a>\n      </div>\n    </div>\n\n    <div class=\"footer-links\">\n      <a href=\"/\">Home</a>\n      <a href=\"/cost/\">Cost</a>\n      <a href=\"/how-to/\">How-To</a>\n    </div>\n    <div class=\"small\">© ".data ++
      ((esc CONFIG.brand_name).data ++
      (". All rights reserved.</div>\n  </div>\n</footer>".data ++
      ("\n</body>\n</html>\n".data)))))))))))))))))))))))))))))))))))))))))))))))))))))))))))))))))))))))))))))))))))))))))))))))))) := by
  simp only [cost_page_html, make_page, base_html, page_shell_eq, footer_block_eq, CSS, String.data_append, List.append_assoc, header_block_false_eq, cost_sections_eq, nav_html_cost_eq]

theorem scanSeg21 (r : List Char) :
    scanElems ScanMode.out
      ("<!doctype html>\n<html lang=\"en\">\n<head>\n  <meta charset=\"utf-8\" />\n  <meta name=\"viewport\" content=\"width=device-width, initial-scale=1\" />\n  <title>".data ++
      ((esc (clamp_title "Wasp Nest Removal Cost Services" 70)).data ++
      ("</title>\n  <meta name=\"description\" content=\"".data ++
      ((esc (clamp_title "Typical wasp nest removal cost ranges and what changes pricing." 155)).data ++
      ("\" />\n  <link rel=\"canonical\" href=\"".data ++ ((esc "/cost/").data ++ ("\" />\n  <style>\n".data ++ (r)))))))) =
      ("title", "Wasp Nest Removal Cost Services") ::
      scanElems ScanMode.out r := rfl

theorem scanSeg22 (r : List Char) :
    scanElems ScanMode.out
      ("\n  </style>\n</head>\n<body>\n  <div class=\"topbar\">\n    <div class=\"topbar-inner\">\n      <a class=\"brand\" href=\"/\">\n        <span class=\"brand-mark\" aria-hidden=\"true\"></span>\n        <span>".data ++
      ((esc CONFIG.brand_name).data ++
      ("</span>\n      </a>\n      ".data ++
      ("<nav class=\"nav\" aria-label=\"Primary navigation\">".data ++
      ("<a href=\"".data ++
      ((esc "/").data ++
      ("\"".data ++
      ("".data ++
      (">".data ++
      ((esc "Home").data ++
      ("</a>".data ++
      ("<a href=\"".data ++
      ((esc "/cost/").data ++
      ("\"".data ++
      (" aria-current=\"page\"".data ++
      (">".data ++
      ((esc "Cost").data ++
      ("</a>".data ++
      ("<a href=\"".data ++
      ((esc "/how-to/").data ++
      ("\"".data ++
      ("".data ++
      (">".data ++
      ((esc "How-To").data ++
      ("</a>".data ++
      ("<a class=\"btn\" href=\"".data ++
      ((esc CONFIG.cta_href).data ++
      ("\">".data ++
      ((esc CONFIG.cta_text).data ++
      ("</a>".data ++
      ("</nav>".data ++
      ("\n    </div>\n  </div>\n".data ++
      ("\n<header>\n  <div class=\"hero\">\n    <div class=\"kicker\">\n      <span class=\"pill\"><span class=\"pill-dot\" aria-hidden=\"true\"></span>".data ++ ((esc "Cost page").data ++ (r))))))))))))))))))))))))))))))))))) =
      scanElems ScanMode.out r := rfl

theorem scanSeg23 (r : List Char) :
    scanElems ScanMode.out
      ("</span>\n    </div>\n    <h1>".data ++
      ((esc (clamp_title "Wasp Nest Removal Cost Services" 70)).data ++
      ("</h1>\n    <p class=\"sub\">".data ++
      ((esc "Simple ranges and the factors that usually move the price.").data ++
      ("</p>\n    <div class=\"hero-cta\">\n      <a class=\"btn\" href=\"".data ++
      ((esc CONFIG.cta_href).data ++
      ("\">".data ++
      ((esc CONFIG.cta_text).data ++
      ("</a>\n      ".data ++
      ("".data ++
      ("\n    </div>\n  </div>\n</header>".data ++
      ("\n<main>\n  <section class=\"card\">\n    <div class=\"img\">\n      <img src=\"".data ++
      ((esc ("/" ++ CONFIG.image_filename)).data ++
      ("\" alt=\"Service image\" loading=\"lazy\" />\n    </div>\n    <div class=\"card-inner\">\n      ".data ++
      ("\n<h2>".data ++
      ((esc (H2_COST.getD 0 "")).data ++
      ("</h2>\n<p>\n  Wasp nest removal cost depends mostly on access and nest location. A visible nest under an eave is typically quicker than one tucked into a structure.\n</p>\n\n<h2>".data ++ (r)))))))))))))))))) =
      ("h1", "Wasp Nest Removal Cost Services") ::
      ("h2", "Wasp Nest Removal Cost") ::
      scanElems (ScanMode.cap "h2" []) r := rfl

theorem scanSeg24 (r : List Char) :
    scanElems (ScanMode.cap "h2" [])
      ((esc (H2_COST.getD 1 "")).data ++
      ("</h2>\n<p>\n  Most homeowners pay somewhere between $".data ++
      ((toString CONFIG.cost_low).data ++
      (" and $".data ++
      ((toString CONFIG.cost_high).data ++
      (" for a single nest removal.\n  High nests, hidden nests, and extra time on site are what usually push the total higher.\n</p>\n\n<h2>".data ++
      ((esc (H2_COST.getD 2 "")).data ++
      ("</h2>\n<p>\n  The cost of wasp nest removal moves with labor time and risk. Bigger nests, awkward rooflines, and repeated trips are common drivers behind a higher ".data ++
      ((esc (ALSO_MENTIONED.getD 5 "")).data ++
      (".\n</p>\n\n<h2>".data ++
      ((esc (H2_COST.getD 3 "")).data ++
      ("</h2>\n<p>\n  Wasp removal cost can be lower when the nest is small and easy to access, and higher when it’s established and defensive.\n  If the nest has already been disturbed, the job can take longer because the wasps are more aggressive.\n</p>\n\n<h2>".data ++ (r))))))))))))) =
      ("h2", "How Much Does It Cost to Remove a Wasp Nest") ::
      ("h2", "Cost of Wasp Nest Removal") ::
      ("h2", "Wasp Removal Cost") ::
      scanElems (ScanMode.cap "h2" []) r := rfl

theorem scanSeg25 (r : List Char) :
    scanElems (ScanMode.cap "h2" [])
      ((esc (H2_COST.getD 4 "")).data ++
      ("</h2>\n<p>\n  Wasp nest removal price is basically the same question as “cost,” just phrased differently. What matters is whether the nest is simple to reach and remove,\n  or whether it needs special handling for safety.\n</p>\n\n<h2>".data ++
      ((esc (H2_COST.getD 5 "")).data ++
      ("</h2>\n<p>\n  Hornet nest removal cost is often higher because hornet nests can be larger and more defensive, and they’re frequently placed higher or deeper in sheltered areas.\n</p>\n\n<hr />\n\n<p class=\"muted\">\n  Typical installed range (single nest, many homes): $".data ++
      ((toString CONFIG.cost_low).data ++
      ("–$".data ++
      ((toString CONFIG.cost_high).data ++
      (". Final pricing depends on access, nest location, and time on site.\n</p>".data ++ ("\n    </div>\n  </section>\n</main>\n".data ++ (r)))))))))) =
      ("h2", "Wasp Nest Removal Price") ::
      ("h2", "Hornet Nest Removal Cost") ::
      scanElems ScanMode.out r := rfl

theorem scanSeg26 :
    scanElems ScanMode.out
      ("\n<footer>\n  <div class=\"footer-inner\">\n    <div class=\"footer-cta\">\n      <h2>Next steps</h2>\n      <p class=\"sub\">Ready to move forward? Request a free quote.</p>\n      <div style=\"margin-top:10px\">\n        <a class=\"btn\" href=\"".data ++
      ((esc CONFIG.cta_href).data ++
      ("\">".data ++
      ((esc CONFIG.cta_text).data ++
      ("</a>\n      </div>\n    </div>\n\n    <div class=\"footer-links\">\n      <a href=\"/\">Home</a>\n      <a href=\"/cost/\">Cost</a>\n      <a href=\"/how-to/\">How-To</a>\n    </div>\n    <div class=\"small\">© ".data ++
      ((esc CONFIG.brand_name).data ++
      (". All rights reserved.</div>\n  </div>\n</footer>".data ++ ("\n</body>\n</html>\n".data)))))))) =
      [("h2", "Next steps")] := rfl

theorem cost_page_scan :
    scanElems ScanMode.out (cost_page_html CONFIG).data =
      [("title", "Wasp Nest Removal Cost Services"),
      ("h1", "Wasp Nest Removal Cost Services"),
      ("h2", "Wasp Nest Removal Cost"),
      ("h2", "How Much Does It Cost to Remove a Wasp Nest"),
      ("h2", "Cost of Wasp Nest Removal"),
      ("h2", "Wasp Removal Cost"),
      ("h2", "Wasp Nest Removal Price"),
      ("h2", "Hornet Nest Removal Cost"),
      ("h2", "Next steps")] := by
  rw [cost_page_data_eq, scanSeg21, scanSeg2, scanSeg3, scanSeg4, scanSeg5, scanSeg6, scanSeg7, scanSeg8, scanSeg9, scanSeg10, scanSeg11, scanSeg12, scanSeg13, scanSeg22, scanSeg23, scanSeg24, scanSeg25, scanSeg26]

theorem howto_page_data_eq :
    (howto_page_html CONFIG).data =
      "<!doctype html>\n<html lang=\"en\">\n<head>\n  <meta charset=\"utf-8\" />\n  <meta name=\"viewport\" content=\"width=device-width, initial-scale=1\" />\n  <title>".data ++
      ((esc (clamp_title "How to Get Rid of Wasp Nest Services" 70)).data ++
      ("</title>\n  <meta name=\"description\" content=\"".data ++
      ((esc (clamp_title "Clear steps for dealing with a wasp nest without making it worse." 155)).data ++
      ("\" />\n  <link rel=\"canonical\" href=\"".data ++
      ((esc "/how-to/").data ++
      ("\" />\n  <style>\n".data ++
      (cssPart1.data ++
      (cssPart2.data ++
      (cssPart3.data ++
      (cssPart4.data ++
      (cssPart5.data ++
      (cssPart6.data ++
      (cssPart7.data ++
      (cssPart8.data ++
      (cssPart9.data ++
      (cssPart10.data ++
      (cssPart11.data ++
      (cssPart12.data ++
      ("\n  </style>\n</head>\n<body>\n  <div class=\"topbar\">\n    <div class=\"topbar-inner\">\n      <a class=\"brand\" href=\"/\">\n        <span class=\"brand-mark\" aria-hidden=\"true\"></span>\n        <span>".data ++
      ((esc CONFIG.brand_name).data ++
      ("</span>\n      </a>\n      ".data ++
      ("<nav class=\"nav\" aria-label=\"Primary navigation\">".data ++
      ("<a href=\"".data ++
      ((esc "/").data ++
      ("\"".data ++
      ("".data ++
      (">".data ++
      ((esc "Home").data ++
      ("</a>".data ++
      ("<a href=\"".data ++
      ((esc "/cost/").data ++
      ("\"".data ++
      ("".data ++
      (">".data ++
      ((esc "Cost").data ++
      ("</a>".data ++
      ("<a href=\"".data ++
      ((esc "/how-to/").data ++
      ("\"".data ++
      (" aria-current=\"page\"".data ++
      (">".data ++
      ((esc "How-To").data ++
      ("</a>".data ++
      ("<a class=\"btn\" href=\"".data ++
      ((esc CONFIG.cta_href).data ++
      ("\">".data ++
      ((esc CONFIG.cta_text).data ++
      ("</a>".data ++
      ("</nav>".data ++
      ("\n    </div>\n  </div>\n".data ++
      ("\n<header>\n  <div class=\"hero\">\n    <div class=\"kicker\">\n      <span class=\"pill\"><span class=\"pill-dot\" aria-hidden=\"true\"></span>".data ++
      ((esc "How-to page").data ++
      ("</span>\n    </div>\n    <h1>".data ++
      ((esc (clamp_title "How to Get Rid of Wasp Nest Services" 70)).data ++
      ("</h1>\n    <p class=\"sub\">".data ++
      ((esc "A practical guide that prioritizes safety and reduces repeat activity.").data ++
      ("</p>\n    <div class=\"hero-cta\">\n      <a class=\"btn\" href=\"".data ++
      ((esc CONFIG.cta_href).data ++
      ("\">".data ++
      ((esc CONFIG.cta_text).data ++
      ("</a>\n      ".data ++
      ("".data ++
      ("\n    </div>\n  </div>\n</header>".data ++
      ("\n<main>\n  <section class=\"card\">\n    <div class=\"img\">\n      <img src=\"".data ++
      ((esc ("/" ++ CONFIG.image_filename)).data ++
      ("\" alt=\"Service image\" loading=\"lazy\" />\n    </div>\n    <div class=\"card-inner\">\n      ".data ++
      ("\n<h2>".data ++
      ((esc (H2_HOWTO.getD 0 "")).data ++
      ("</h2>\n<p>\n  To get rid of a wasp nest, don’t provoke it first. The safest plan is to identify the entrance, keep people and pets away, and treat the nest when activity is low.\n  If you can’t clearly see the nest or it’s high up, skip this and call a pro.\n</p>\n\n<h2>".data ++
      ((esc (H2_HOWTO.getD 1 "")).data ++
      ("</h2>\n<p>\n  To remove a wasp nest, you treat it first and only take it down once activity drops. Pulling down an active nest is what triggers defensive behavior and increases the risk of ".data ++
      ((esc (ALSO_MENTIONED.getD 4 "")).data ++
      (".\n</p>\n\n<h2>".data ++
      ((esc (H2_HOWTO.getD 2 "")).data ++
      ("</h2>\n<p>\n  “Remove wasp nest” really means removing the source of activity, not just spraying around. If wasps keep returning to the same spot, the nest entrance is still active.\n</p>\n\n<h2>".data ++
      ((esc (H2_HOWTO.getD 3 "")).data ++
      ("</h2>\n<p>\n  The best time to spray a wasp nest is when activity is low and fewer wasps are flying in and out. Bad timing can make the nest more defensive and the situation worse.\n</p>\n\n<h2>".data ++
      ((esc (H2_HOWTO.getD 4 "")).data ++
      ("</h2>\n<p>\n  Wasp spray only helps if you can safely hit the nest and follow directions. Improvising with a ".data ++
      ((esc (ALSO_MENTIONED.getD 2 "")).data ++
      (" or mixing products can create safety issues—don’t do that.\n</p>\n\n<h2>".data ++
      ((esc (H2_HOWTO.getD 5 "")).data ++
      ("</h2>\n<p>\n  What kills wasps depends on the product and direct contact, but the bigger point is targeting the nest. If you can’t safely reach it,\n  trying to “solve it from a distance” usually just spreads activity and increases sting risk.\n</p>".data ++
      ("\n    </div>\n  </section>\n</main>\n".data ++
      ("\n<footer>\n  <div class=\"footer-inner\">\n    <div class=\"footer-cta\">\n      <h2>Next steps</h2>\n      <p class=\"sub\">Ready to move forward? Request a free quote.</p>\n      <div style=\"margin-top:10px\">\n        <a class=\"btn\" href=\"".data ++
      ((esc CONFIG.cta_href).data ++
      ("\">".data ++
      ((esc CONFIG.cta_text).data ++
      ("</a>\n      </div>\n    </div>\n\n    <div class=\"footer-links\">\n      <a href=\"/\">Home</a>\n      <a href=\"/cost/\">Cost</a>\n      <a href=\"/how-to/\">How-To</a>\n    </div>\n    <div class=\"small\">© ".data ++
      ((esc CONFIG.brand_name).data ++
      (". All rights reserved.</div>\n  </div>\n</footer>".data ++
      ("\n</body>\n</html>\n".data)))))))))))))))))))))))))))))))))))))))))))))))))))))))))))))))))))))))))))))))))))))))))))) := by
  simp only [howto_page_html, make_page, base_html, page_shell_eq, footer_block_eq, CSS, String.data_append, List.append_assoc, header_block_false_eq, howto_sections_eq, nav_html_howto_eq]

theorem scanSeg27 (r : List Char) :
    scanElems ScanMode.out
      ("<!doctype html>\n<html lang=\"en\">\n<head>\n  <meta charset=\"utf-8\" />\n  <meta name=\"viewport\" content=\"width=device-width, initial-scale=1\" />\n  <title>".data ++
      ((esc (clamp_title "How to Get Rid of Wasp Nest Services" 70)).data ++
      ("</title>\n  <meta name=\"description\" content=\"".data ++
      ((esc (clamp_title "Clear steps for dealing with a wasp nest without making it worse." 155)).data ++
      ("\" />\n  <link rel=\"canonical\" href=\"".data ++ ((esc "/how-to/").data ++ ("\" />\n  <style>\n".data ++ (r)))))))) =
      ("title", "How to Get Rid of Wasp Nest Services") ::
      scanElems ScanMode.out r := rfl

theorem scanSeg28 (r : List Char) :
    scanElems ScanMode.out
      ("\n  </style>\n</head>\n<body>\n  <div class=\"topbar\">\n    <div class=\"topbar-inner\">\n      <a class=\"brand\" href=\"/\">\n        <span class=\"brand-mark\" aria-hidden=\"true\"></span>\n        <span>".data ++
      ((esc CONFIG.brand_name).data ++
      ("</span>\n      </a>\n      ".data ++
      ("<nav class=\"nav\" aria-label=\"Primary navigation\">".data ++
      ("<a href=\"".data ++
      ((esc "/").data ++
      ("\"".data ++
      ("".data ++
      (">".data ++
      ((esc "Home").data ++
      ("</a>".data ++
      ("<a href=\"".data ++
      ((esc "/cost/").data ++
      ("\"".data ++
      ("".data ++
      (">".data ++
      ((esc "Cost").data ++
      ("</a>".data ++
      ("<a href=\"".data ++
      ((esc "/how-to/").data ++
      ("\"".data ++
      (" aria-current=\"page\"".data ++
      (">".data ++
      ((esc "How-To").data ++
      ("</a>".data ++
      ("<a class=\"btn\" href=\"".data ++
      ((esc CONFIG.cta_href).data ++
      ("\">".data ++
      ((esc CONFIG.cta_text).data ++
      ("</a>".data ++
      ("</nav>".data ++
      ("\n    </div>\n  </div>\n".data ++
      ("\n<header>\n  <div class=\"hero\">\n    <div class=\"kicker\">\n      <span class=\"pill\"><span class=\"pill-dot\" aria-hidden=\"true\"></span>".data ++ ((esc "How-to page").data ++ (r))))))))))))))))))))))))))))))))))) =
      scanElems ScanMode.out r := rfl

theorem scanSeg29 (r : List Char) :
    scanElems ScanMode.out
      ("</span>\n    </div>\n    <h1>".data ++
      ((esc (clamp_title "How to Get Rid of Wasp Nest Services" 70)).data ++
      ("</h1>\n    <p class=\"sub\">".data ++
      ((esc "A practical guide that prioritizes safety and reduces repeat activity.").data ++
      ("</p>\n    <div class=\"hero-cta\">\n      <a class=\"btn\" href=\"".data ++
      ((esc CONFIG.cta_href).data ++
      ("\">".data ++
      ((esc CONFIG.cta_text).data ++
      ("</a>\n      ".data ++
      ("".data ++
      ("\n    </div>\n  </div>\n</header>".data ++
      ("\n<main>\n  <section class=\"card\">\n    <div class=\"img\">\n      <img src=\"".data ++
      ((esc ("/" ++ CONFIG.image_filename)).data ++
      ("\" alt=\"Service image\" loading=\"lazy\" />\n    </div>\n    <div class=\"card-inner\">\n      ".data ++
      ("\n<h2>".data ++
      ((esc (H2_HOWTO.getD 0 "")).data ++
      ("</h2>\n<p>\n  To get rid of a wasp nest, don’t provoke it first. The safest plan is to identify the entrance, keep people and pets away, and treat the nest when activity is low.\n  If you can’t clearly see the nest or it’s high up, skip this and call a pro.\n</p>\n\n<h2>".data ++ (r)))))))))))))))))) =
      ("h1", "How to Get Rid of Wasp Nest Services") ::
      ("h2", "How to Get Rid of Wasp Nest") ::
      scanElems (ScanMode.cap "h2" []) r := rfl

theorem scanSeg30 (r : List Char) :
    scanElems (ScanMode.cap "h2" [])
      ((esc (H2_HOWTO.getD 1 "")).data ++
      ("</h2>\n<p>\n  To remove a wasp nest, you treat it first and only take it down once activity drops. Pulling down an active nest is what triggers defensive behavior and increases the risk of ".data ++
      ((esc (ALSO_MENTIONED.getD 4 "")).data ++
      (".\n</p>\n\n<h2>".data ++
      ((esc (H2_HOWTO.getD 2 "")).data ++
      ("</h2>\n<p>\n  “Remove wasp nest” really means removing the source of activity, not just spraying around. If wasps keep returning to the same spot, the nest entrance is still active.\n</p>\n\n<h2>".data ++
      ((esc (H2_HOWTO.getD 3 "")).data ++
      ("</h2>\n<p>\n  The best time to spray a wasp nest is when activity is low and fewer wasps are flying in and out. Bad timing can make the nest more defensive and the situation worse.\n</p>\n\n<h2>".data ++ (r))))))))) =
      ("h2", "How to Remove Wasp Nest") ::
      ("h2", "Remove Wasp Nest") ::
      ("h2", "Best Time to Spray Wasp Nest") ::
      scanElems (ScanMode.cap "h2" []) r := rfl

theorem scanSeg31 (r : List Char) :
    scanElems (ScanMode.cap "h2" [])
      ((esc (H2_HOWTO.getD 4 "")).data ++
      ("</h2>\n<p>\n  Wasp spray only helps if you can safely hit the nest and follow directions. Improvising with a ".data ++
      ((esc (ALSO_MENTIONED.getD 2 "")).data ++
      (" or mixing products can create safety issues—don’t do that.\n</p>\n\n<h2>".data ++
      ((esc (H2_HOWTO.getD 5 "")).data ++
      ("</h2>\n<p>\n  What kills wasps depends on the product and direct contact, but the bigger point is targeting the nest. If you can’t safely reach it,\n  trying to “solve it from a distance” usually just spreads activity and increases sting risk.\n</p>".data ++ ("\n    </div>\n  </section>\n</main>\n".data ++ (r)))))))) =
      ("h2", "Wasp Spray") ::
      ("h2", "What Kills Wasps") ::
      scanElems ScanMode.out r := rfl

theorem howto_page_scan :
    scanElems ScanMode.out (howto_page_html CONFIG).data =
      [("title", "How to Get Rid of Wasp Nest Services"),
      ("h1", "How to Get Rid of Wasp Nest Services"),
      ("h2", "How to Get Rid of Wasp Nest"),
      ("h2", "How to Remove Wasp Nest"),
      ("h2", "Remove Wasp Nest"),
      ("h2", "Best Time to Spray Wasp Nest"),
      ("h2", "Wasp Spray"),
      ("h2", "What Kills Wasps"),
      ("h2", "Next steps")] := by
  rw [howto_page_data_eq, scanSeg27, scanSeg2, scanSeg3, scanSeg4, scanSeg5, scanSeg6, scanSeg7, scanSeg8, scanSeg9, scanSeg10, scanSeg11, scanSeg12, scanSeg13, scanSeg28, scanSeg29, scanSeg30, scanSeg31, scanSeg26]

theorem city_page_data_eq (city state : String) :
    (city_page_html CONFIG city state).data =
      "<!doctype html>\n<html lang=\"en\">\n<head>\n  <meta charset=\"utf-8\" />\n  <meta name=\"viewport\" content=\"width=device-width, initial-scale=1\" />\n  <title>".data ++
      ((esc (clamp_title (city_h1 CONFIG.service_name city state) 70)).data ++
      ("</title>\n  <meta name=\"description\" content=\"".data ++
      ((esc (clamp_title ("Wasp nest removal and wasp control guide with local context for " ++ city ++ ", " ++ state ++ ".") 155)).data ++
      ("\" />\n  <link rel=\"canonical\" href=\"".data ++
      ((esc ("/" ++ city_state_slug city state ++ "/")).data ++
      ("\" />\n  <style>\n".data ++
      (cssPart1.data ++
      (cssPart2.data ++
      (cssPart3.data ++
      (cssPart4.data ++
      (cssPart5.data ++
      (cssPart6.data ++
      (cssPart7.data ++
      (cssPart8.data ++
      (cssPart9.data ++
      (cssPart10.data ++
      (cssPart11.data ++
      (cssPart12.data ++
      ("\n  </style>\n</head>\n<body>\n  <div class=\"topbar\">\n    <div class=\"topbar-inner\">\n      <a class=\"brand\" href=\"/\">\n        <span class=\"brand-mark\" aria-hidden=\"true\"></span>\n        <span>".data ++
      ((esc CONFIG.brand_name).data ++
      ("</span>\n      </a>\n      ".data ++
      ("<nav class=\"nav\" aria-label=\"Primary navigation\">".data ++
      ("<a href=\"".data ++
      ((esc "/").data ++
      ("\"".data ++
      (" aria-current=\"page\"".data ++
      (">".data ++
      ((esc "Home").data ++
      ("</a>".data ++
      ("<a href=\"".data ++
      ((esc "/cost/").data ++
      ("\"".data ++
      ("".data ++
      (">".data ++
      ((esc "Cost").data ++
      ("</a>".data ++
      ("<a href=\"".data ++
      ((esc "/how-to/").data ++
      ("\"".data ++
      ("".data ++
      (">".data ++
      ((esc "How-To").data ++
      ("</a>".data ++
      ("<a class=\"btn\" href=\"".data ++
      ((esc CONFIG.cta_href).data ++
      ("\">".data ++
      ((esc CONFIG.cta_text).data ++
      ("</a>".data ++
      ("</nav>".data ++
      ("\n    </div>\n  </div>\n".data ++
      ("\n<header>\n  <div class=\"hero\">\n    <div class=\"kicker\">\n      <span class=\"pill\"><span class=\"pill-dot\" aria-hidden=\"true\"></span>".data ++
      ((esc "City service page").data ++
      ("</span>\n    </div>\n    <h1>".data ++
      ((esc (clamp_title (city_h1 CONFIG.service_name city state) 70)).data ++
      ("</h1>\n    <p class=\"sub\">".data ++
      ((esc "Same core guide, plus a quick local note and a pricing snapshot.").data ++
      ("</p>\n    <div class=\"hero-cta\">\n      <a class=\"btn\" href=\"".data ++
      ((esc CONFIG.cta_href).data ++
      ("\">".data ++
      ((esc CONFIG.cta_text).data ++
      ("</a>\n      ".data ++
      ("<a class=\"ghost\" href=\"/cost/\">See typical pricing</a>".data ++
      ("\n    </div>\n  </div>\n</header>".data ++
      ("\n<main>\n  <section class=\"card\">\n    <div class=\"img\">\n      <img src=\"".data ++
      ((esc ("/" ++ CONFIG.image_filename)).data ++
      ("\" alt=\"Service image\" loading=\"lazy\" />\n    </div>\n    <div class=\"card-inner\">\n      ".data ++
      ("\n<div class=\"callout\" role=\"note\" aria-label=\"Typical pricing callout\">\n  <div>\n    <strong>Typical cost range in ".data ++
      ((esc city).data ++
      (", ".data ++
      ((esc state).data ++
      ("</strong>\n    <p>$".data ++
      ((toString CONFIG.cost_low).data ++
      ("–$".data ++
      ((toString CONFIG.cost_high).data ++
      (" for one nest in many homes. Access &amp; nest location drive the final total.</p>\n  </div>\n  <div>\n    <a class=\"btn\" href=\"".data ++
      ((esc CONFIG.cta_href).data ++
      ("\">".data ++
      ((esc CONFIG.cta_text).data ++
      ("</a>\n  </div>\n</div>".data ++
      ("\n".data ++
      ("\n<h2>".data ++
      ((esc (H2_SHARED.getD 0 "")).data ++
      ("</h2>\n<p>\n  We remove a wasp nest by finding where the wasps enter, treating the nest, and taking it down once activity drops.\n  If you see steady wasp traffic to one spot, that’s usually the nest’s main entrance.".data ++
      (" <span class=\"muted\">".data ++
      ((esc ("Serving " ++ city ++ ", " ++ state ++ ".")).data ++
      ("</span>".data ++
      ("\n</p>\n<p class=\"muted\">\n  If the nest is high up or you can’t confirm where it sits, don’t poke around—disturbing an active ".data ++
      ((esc (ALSO_MENTIONED.getD 7 "")).data ++
      (" is a fast way to get stung.\n</p>\n\n<h2>".data ++
      ((esc (H2_SHARED.getD 1 "")).data ++
      ("</h2>\n<p>\n  Wasp control is about preventing repeat activity after the nest is handled. That usually means checking common rebuild spots\n  and reducing easy access points—small gaps, sheltered ledges, and other places a new nest can get started.\n</p>\n\n<h2>".data ++
      ((esc (H2_SHARED.getD 2 "")).data ++
      ("</h2>\n<p>\n  A wasp exterminator is the right call when access is risky or the nest is in a tight void. If you’re worried about ".data ++
      ((esc (ALSO_MENTIONED.getD 4 "")).data ++
      (",\n  getting it handled safely is the smarter move.\n</p>\n\n<h2>".data ++
      ((esc (H2_SHARED.getD 3 "")).data ++
      ("</h2>\n<p>\n  Paper wasp nest removal is often needed under eaves and overhangs where nests stay dry and protected. The nest can look small from the ground,\n  but activity level is the better clue—heavy traffic usually means a larger colony than it appears.\n</p>\n\n<h2>".data ++
      ((esc (H2_SHARED.getD 4 "")).data ++
      ("</h2>\n<p>\n  Ground wasp nest removal is different because the entrance can be a small hole and the nest can spread under the soil.\n  Treating the wrong spot can make the area “hot” with defensive wasps, so approach and timing matter more here than almost anywhere else.\n</p>\n\n<h2>".data ++
      ((esc (H2_SHARED.getD 5 "")).data ++
      ("</h2>\n<p>\n  Wasp removal is the hands-on work: locate the nest, treat it, and confirm activity drops. Spraying random surfaces doesn’t solve the problem—the nest does.\n  If you keep seeing wasps returning to the same spot, you’re missing the actual entrance.\n</p>".data ++
      ("\n<hr />\n<p class=\"muted\">\n  Want the full breakdown? See the <a href=\"/cost/\">cost page</a> for the factors that move pricing.\n</p>\n".data ++
      ("\n    </div>\n  </section>\n</main>\n".data ++
      ("\n<footer>\n  <div class=\"footer-inner\">\n    <div class=\"footer-cta\">\n      <h2>Next steps</h2>\n      <p class=\"sub\">Ready to move forward? Request a free quote.</p>\n      <div style=\"margin-top:10px\">\n        <a class=\"btn\" href=\"".data ++
      ((esc CONFIG.cta_href).data ++
      ("\">".data ++
      ((esc CONFIG.cta_text).data ++
      ("</a>\n      </div>\n    </div>\n\n    <div class=\"footer-links\">\n      <a href=\"/\">Home</a>\n      <a href=\"/cost/\">Cost</a>\n      <a href=\"/how-to/\">How-To</a>\n    </div>\n    <div class=\"small\">© ".data ++
      ((esc CONFIG.brand_name).data ++
      (". All rights reserved.</div>\n  </div>\n</footer>".data ++
      ("\n</body>\n</html>\n".data))))))))))))))))))))))))))))))))))))))))))))))))))))))))))))))))))))))))))))))))))))))))))))))))))))))))))))))) := by
  have hne : ¬(("Serving " ++ city ++ ", " ++ state ++ ".") : String) = "" :=
    serving_ne_empty city state
  simp only [city_page_html, make_page, base_html, page_shell_eq, footer_block_eq, CSS, String.data_append, List.append_assoc, header_block_true_eq, shared_sections_some_eq _ hne, cost_callout_eq, nav_html_home_eq]

theorem scanSeg32 (r : List Char) :
    scanElems ScanMode.out
      ("<!doctype html>\n<html lang=\"en\">\n<head>\n  <meta charset=\"utf-8\" />\n  <meta name=\"viewport\" content=\"width=device-width, initial-scale=1\" />\n  <title>".data ++ (r)) =
      scanElems (ScanMode.cap "title" []) r := rfl

theorem scanSeg33 (t : String) (acc : List Char) (r : List Char) :
    scanElems (ScanMode.cap t acc)
      ("</title>\n  <meta name=\"description\" content=\"".data ++ (r)) =
      (t, String.mk acc.reverse) ::
      scanElems ScanMode.out r := rfl

theorem scanSeg34 (r : List Char) :
    scanElems ScanMode.out
      ("\" />\n  <link rel=\"canonical\" href=\"".data ++ (r)) =
      scanElems ScanMode.out r := rfl

theorem scanSeg35 (r : List Char) :
    scanElems ScanMode.out
      ("\" />\n  <style>\n".data ++ (r)) =
      scanElems ScanMode.out r := rfl

theorem scanSeg36 (r : List Char) :
    scanElems ScanMode.out
      ((esc "City service page").data ++ ("</span>\n    </div>\n    <h1>".data ++ (r))) =
      scanElems (ScanMode.cap "h1" []) r := rfl

theorem scanSeg37 (t : String) (acc : List Char) (r : List Char) :
    scanElems (ScanMode.cap t acc)
      ("</h1>\n    <p class=\"sub\">".data ++
      ((esc "Same core guide, plus a quick local note and a pricing snapshot.").data ++
      ("</p>\n    <div class=\"hero-cta\">\n      <a class=\"btn\" href=\"".data ++
      ((esc CONFIG.cta_href).data ++
      ("\">".data ++
      ((esc CONFIG.cta_text).data ++
      ("</a>\n      ".data ++
      ("<a class=\"ghost\" href=\"/cost/\">See typical pricing</a>".data ++
      ("\n    </div>\n  </div>\n</header>".data ++
      ("\n<main>\n  <section class=\"card\">\n    <div class=\"img\">\n      <img src=\"".data ++
      ((esc ("/" ++ CONFIG.image_filename)).data ++
      ("\" alt=\"Service image\" loading=\"lazy\" />\n    </div>\n    <div class=\"card-inner\">\n      ".data ++
      ("\n<div class=\"callout\" role=\"note\" aria-label=\"Typical pricing callout\">\n  <div>\n    <strong>Typical cost range in ".data ++ (r)))))))))))))) =
      (t, String.mk acc.reverse) ::
      scanElems ScanMode.out r := rfl

theorem scanSeg38 (r : List Char) :
    scanElems ScanMode.out
      (", ".data ++ (r)) =
      scanElems ScanMode.out r := rfl

theorem scanSeg39 (r : List Char) :
    scanElems ScanMode.out
      ("</strong>\n    <p>$".data ++
      ((toString CONFIG.cost_low).data ++
      ("–$".data ++
      ((toString CONFIG.cost_high).data ++
      (" for one nest in many homes. Access &amp; nest location drive the final total.</p>\n  </div>\n  <div>\n    <a class=\"btn\" href=\"".data ++
      ((esc CONFIG.cta_href).data ++
      ("\">".data ++
      ((esc CONFIG.cta_text).data ++
      ("</a>\n  </div>\n</div>".data ++
      ("\n".data ++
      ("\n<h2>".data ++
      ((esc (H2_SHARED.getD 0 "")).data ++
      ("</h2>\n<p>\n  We remove a wasp nest by finding where the wasps enter, treating the nest, and taking it down once activity drops.\n  If you see steady wasp traffic to one spot, that’s usually the nest’s main entrance.".data ++ (" <span class=\"muted\">".data ++ (r))))))))))))))) =
      ("h2", "Wasp Nest Removal") ::
      scanElems ScanMode.out r := rfl

theorem scanSeg40 (r : List Char) :
    scanElems ScanMode.out
      ("</span>".data ++
      ("\n</p>\n<p class=\"muted\">\n  If the nest is high up or you can’t confirm where it sits, don’t poke around—disturbing an active ".data ++
      ((esc (ALSO_MENTIONED.getD 7 "")).data ++
      (" is a fast way to get stung.\n</p>\n\n<h2>".data ++
      ((esc (H2_SHARED.getD 1 "")).data ++
      ("</h2>\n<p>\n  Wasp control is about preventing repeat activity after the nest is handled. That usually means checking common rebuild spots\n  and reducing easy access points—small gaps, sheltered ledges, and other places a new nest can get started.\n</p>\n\n<h2>".data ++
      ((esc (H2_SHARED.getD 2 "")).data ++
      ("</h2>\n<p>\n  A wasp exterminator is the right call when access is risky or the nest is in a tight void. If you’re worried about ".data ++ ((esc (ALSO_MENTIONED.getD 4 "")).data ++ (r)))))))))) =
      ("h2", "Wasp Control") ::
      ("h2", "Wasp Exterminator") ::
      scanElems ScanMode.out r := rfl

theorem scanSeg41 (r : List Char) :
    scanElems (ScanMode.cap "h2" [])
      ((esc (H2_SHARED.getD 5 "")).data ++
      ("</h2>\n<p>\n  Wasp removal is the hands-on work: locate the nest, treat it, and confirm activity drops. Spraying random surfaces doesn’t solve the problem—the nest does.\n  If you keep seeing wasps returning to the same spot, you’re missing the actual entrance.\n</p>".data ++
      ("\n<hr />\n<p class=\"muted\">\n  Want the full breakdown? See the <a href=\"/cost/\">cost page</a> for the factors that move pricing.\n</p>\n".data ++ ("\n    </div>\n  </section>\n</main>\n".data ++ (r))))) =
      ("h2", "Wasp Removal") ::
      scanElems ScanMode.out r := rfl

theorem city_page_scan (city state : String) :
    scanElems ScanMode.out (city_page_html CONFIG city state).data =
      [("title", esc (clamp_title (city_h1 CONFIG.service_name city state) 70)),
      ("h1", esc (clamp_title (city_h1 CONFIG.service_name city state) 70)),
      ("h2", "Wasp Nest Removal"),
      ("h2", "Wasp Control"),
      ("h2", "Wasp Exterminator"),
      ("h2", "Paper Wasp Nest Removal"),
      ("h2", "Ground Wasp Nest Removal"),
      ("h2", "Wasp Removal"),
      ("h2", "Next steps")] := by
  have hne : ¬(("Serving " ++ city ++ ", " ++ state ++ ".") : String) = "" :=
    serving_ne_empty city state
  rw [city_page_data_eq, scanSeg32, scan_cap_esc, scanSeg33, scan_out_esc, scanSeg34, scan_out_esc, scanSeg35, scanSeg2, scanSeg3, scanSeg4, scanSeg5, scanSeg6, scanSeg7, scanSeg8, scanSeg9, scanSeg10, scanSeg11, scanSeg12, scanSeg13, scanSeg14, scanSeg36, scan_cap_esc, scanSeg37, scan_out_esc, scanSeg38, scan_out_esc, scanSeg39, scan_out_esc, scanSeg40, scanSeg17, scanSeg41, scanSeg26]
  simp only [List.append_nil, List.reverse_reverse, String_mk_data]

/-! ## Sitemap extraction (claim C6) -/

/-- Scan a sitemap document for `<loc>…</loc>` entries (text up to the
closing tag's `<`), in order. -/
def scanLocs : Option (List Char) → List Char → List String
  | none, '<' :: 'l' :: 'o' :: 'c' :: '>' :: r => scanLocs (some []) r
  | none, _ :: r => scanLocs none r
  | none, [] => []
  | some acc, '<' :: r => String.mk acc.reverse :: scanLocs none r
  | some acc, c :: r => scanLocs (some (c :: acc)) r
  | some _, [] => []

/-! ## A filesystem trace model of `main` (claim C7)

`main` performs, in order: `reset_output_dir`, `copy_site_image` (which
raises `FileNotFoundError` when `picture.png` is not next to the script),
then one `write_text` per page and for `robots.txt` / `sitemap.xml`.
The steps are interpreted sequentially and execution stops at the first
failing step; the source image's existence is the one external input.
(The image's directory prefix is abbreviated to its filename.) -/

inductive Step where
  | reset : String → Step
  | copyImage : Bool → String → Step
  | write : String → String → Step
deriving Repr, DecidableEq

/-- The straight-line step list of `main`. -/
def mainProgram (cfg : SiteConfig) (cities : List (String × String))
    (imageExists : Bool) : List Step :=
  Step.reset cfg.output_dir ::
  Step.copyImage imageExists cfg.image_filename ::
  (generate cfg cities).map (fun pc => Step.write pc.1 pc.2)

/-- Does a step raise? Only `copy_site_image` can, when the image is missing. -/
def stepFails : Step → Option String
  | .copyImage ok name =>
    if ok then none else some ("FileNotFoundError: Missing image next to generate.py: " ++ name)
  | _ => none

/-- Run steps in order; stop at the first failure.  Returns the performed
steps and the error, if any. -/
def runSteps : List Step → List Step × Option String
  | [] => ([], none)
  | s :: rest =>
    match stepFails s with
    | some e => ([], some e)
    | none =>
      let res := runSteps rest
      (s :: res.1, res.2)

/-- One full run of `main`. -/
def runMain (cfg : SiteConfig) (cities : List (String × String))
    (imageExists : Bool) : List Step × Option String :=
  runSteps (mainProgram cfg cities imageExists)

/-! ## Claims C6, C7, C8, C10 -/

/-- C6: `sitemap.xml` contains exactly one `<url><loc>…</loc></url>` entry
per path in the output manifest (the home path `/`, `/cost/`, `/how-to/`,
and one slug-derived path per configured city), in order, with no extra and
no missing entries; `/` is included for the home page. -/
theorem sitemap_one_entry_per_path :
    mainUrls CITIES =
      ["/", "/cost/", "/how-to/"] ++
        CITIES.map (fun cs => "/" ++ city_state_slug cs.1 cs.2 ++ "/") ∧
    scanLocs none (sitemap_xml (mainUrls CITIES)).data = mainUrls CITIES ∧
    "/" ∈ mainUrls CITIES := by
  refine ⟨rfl, by decide, by decide⟩

/-- C7: when the shared image file is absent, the run aborts with the
distinct missing-file error raised by `copy_site_image`, and the only
filesystem step already performed is the output-directory reset — no HTML
page, `robots.txt` or `sitemap.xml` write has happened. -/
theorem missing_image_aborts (cfg : SiteConfig) (cities : List (String × String)) :
    (runMain cfg cities false).2 =
      some ("FileNotFoundError: Missing image next to generate.py: " ++ cfg.image_filename) ∧
    (runMain cfg cities false).1 = [Step.reset cfg.output_dir] := by
  exact ⟨rfl, rfl⟩

/-- C8: the generation pipeline is deterministic — two runs with identical
configuration (service name, brand, CTA, prices, image name) and identical
city list produce identical `(path, contents)` lists, hence byte-identical
file contents for every output file. -/
theorem generate_deterministic (cfg₁ cfg₂ : SiteConfig)
    (cities₁ cities₂ : List (String × String))
    (hc : cfg₁ = cfg₂) (hl : cities₁ = cities₂) :
    generate cfg₁ cities₁ = generate cfg₂ cities₂ := by
  rw [hc, hl]

/-- Witness for C8 at the configured site. -/
theorem generate_deterministic_witness :
    generate CONFIG CITIES = generate CONFIG CITIES :=
  generate_deterministic CONFIG CONFIG CITIES CITIES rfl rfl

/-- C10: the 20 configured cities have pairwise distinct slugs, so all
output file paths are pairwise distinct (no write overwrites another), and
the sitemap manifest contains no duplicate URL. -/
theorem output_paths_nodup :
    (CITIES.map (fun cs => city_state_slug cs.1 cs.2)).Nodup ∧
    ((generate CONFIG CITIES).map Prod.fst).Nodup ∧
    (mainUrls CITIES).Nodup := by
  refine ⟨by decide, by decide, by decide⟩

/-! ## Claim C1: title equals H1, at most 70 characters, single H1 -/

/-- C1: every generated page has exactly one `<title>` and one `<h1>`
element, their (pre-escaping) text is the same string `t`, and `t` is at
most 70 characters long (the rendered element content is `esc t`). -/
theorem pages_title_eq_h1 :
    ∀ p ∈ sitePages, ∃ t : String, t.length ≤ 70 ∧
      elemTexts p "title" = [esc t] ∧ elemTexts p "h1" = [esc t] := by
  intro p hp
  simp only [sitePages, List.mem_append, List.mem_cons, List.mem_map,
    List.not_mem_nil, or_false] at hp
  rcases hp with (rfl | rfl | rfl) | ⟨cs, _, rfl⟩
  · refine ⟨clamp_title CONFIG.service_name 70, by decide, ?_, ?_⟩ <;>
      (rw [elemTexts, home_page_scan]; decide)
  · refine ⟨clamp_title "Wasp Nest Removal Cost Services" 70, by decide, ?_, ?_⟩ <;>
      (rw [elemTexts, cost_page_scan]; decide)
  · refine ⟨clamp_title "How to Get Rid of Wasp Nest Services" 70, by decide, ?_, ?_⟩ <;>
      (rw [elemTexts, howto_page_scan]; decide)
  · refine ⟨clamp_title (city_h1 CONFIG.service_name cs.1 cs.2) 70, ?_, ?_, ?_⟩
    · exact_mod_cast clamp_title_length_le (city_h1 CONFIG.service_name cs.1 cs.2) 70
        (by norm_num)
    · rw [elemTexts, city_page_scan]
      simp
    · rw [elemTexts, city_page_scan]
      simp

/-- Witness for C1 at the cost page. -/
theorem pages_title_eq_h1_witness :
    ∃ t : String, t.length ≤ 70 ∧
      elemTexts (cost_page_html CONFIG) "title" = [esc t] ∧
      elemTexts (cost_page_html CONFIG) "h1" = [esc t] :=
  pages_title_eq_h1 (cost_page_html CONFIG) (by simp [sitePages])

/-! ## Claim C2: the secondary-heading (`<h2>`) sequences -/

/-- C2 (counterexample to the pairwise-disjointness part as stated): the
footer's `<h2>Next steps</h2>` is rendered on every page, so the heading
string `"Next steps"` appears in the `<h2>` sequence of the home page, the
cost page and the how-to page alike. -/
theorem h2_disjointness_counterexample :
    "Next steps" ∈ elemTexts (homepage_html CONFIG CITIES) "h2" ∧
    "Next steps" ∈ elemTexts (cost_page_html CONFIG) "h2" ∧
    "Next steps" ∈ elemTexts (howto_page_html CONFIG) "h2" := by
  refine ⟨?_, ?_, ?_⟩
  · rw [elemTexts, home_page_scan]; decide
  · rw [elemTexts, cost_page_scan]; decide
  · rw [elemTexts, howto_page_scan]; decide

/-- C2 (amended): the home page and every city page render the identical
ordered `<h2>` sequence (the six `H2_SHARED` headings followed by the
footer's `"Next steps"`); the cost and how-to pages render their own
`H2_COST` / `H2_HOWTO` headings followed by the same footer heading; and
the three content heading sets — i.e. the sequences apart from the footer
heading shared by every page — are pairwise disjoint. -/
theorem h2_sequences :
    (∀ city state : String,
      elemTexts (city_page_html CONFIG city state) "h2" =
        elemTexts (homepage_html CONFIG CITIES) "h2") ∧
    elemTexts (homepage_html CONFIG CITIES) "h2" = H2_SHARED.map esc ++ ["Next steps"] ∧
    elemTexts (cost_page_html CONFIG) "h2" = H2_COST.map esc ++ ["Next steps"] ∧
    elemTexts (howto_page_html CONFIG) "h2" = H2_HOWTO.map esc ++ ["Next steps"] ∧
    (∀ x ∈ H2_SHARED.map esc, x ∉ H2_COST.map esc) ∧
    (∀ x ∈ H2_SHARED.map esc, x ∉ H2_HOWTO.map esc) ∧
    (∀ x ∈ H2_COST.map esc, x ∉ H2_HOWTO.map esc) := by
  refine ⟨?_, ?_, ?_, ?_, by decide, by decide, by decide⟩
  · intro city state
    simp only [elemTexts, city_page_scan, home_page_scan]
    simp
  · rw [elemTexts, home_page_scan]; decide
  · rw [elemTexts, cost_page_scan]; decide
  · rw [elemTexts, howto_page_scan]; decide

/-- Witness for C2: the Austin page's `<h2>` sequence equals the home
page's, and the first shared heading is not a cost-page heading. -/
theorem h2_sequences_witness :
    elemTexts (city_page_html CONFIG "Austin" "TX") "h2" =
      elemTexts (homepage_html CONFIG CITIES) "h2" ∧
    "Wasp Nest Removal" ∉ H2_COST.map esc :=
  ⟨h2_sequences.1 "Austin" "TX",
   h2_sequences.2.2.2.2.1 "Wasp Nest Removal" (by decide)⟩

/-! ## Claim C5: meta description at most 155 characters -/

theorem metaSplitD :
    ("</title>\n  <meta name=\"description\" content=\"" : String).data =
      "</title>\n  ".data ++ "<meta name=\"description\" content=\"".data := by decide

theorem canonSplitD :
    ("\" />\n  <link rel=\"canonical\" href=\"" : String).data =
      "\" />".data ++ ("\n  ".data ++ "<link rel=\"canonical\" href=\"".data) := by decide

theorem styleSplitD :
    ("\" />\n  <style>\n" : String).data =
      "\" />".data ++ "\n  <style>\n".data := by decide

/-- C5: on every generated page the string placed in the meta-description
attribute (the `d` between `content="` and `" />`) is at most 155
characters long. -/
theorem pages_meta_description_le_155 :
    ∀ p ∈ sitePages, ∃ d : List Char, d.length ≤ 155 ∧
      ContainsL p.data
        ("<meta name=\"description\" content=\"".data ++ d ++ "\" />".data) := by
  intro p hp
  simp only [sitePages, List.mem_append, List.mem_cons, List.mem_map,
    List.not_mem_nil, or_false] at hp
  rcases hp with (rfl | rfl | rfl) | ⟨cs, hmem, rfl⟩
  · refine ⟨(esc (clamp_title "Straight answers on wasp nest removal and wasp control." 155)).data,
      by decide, ?_⟩
    rw [home_page_data_eq, metaSplitD, canonSplitD]
    simp only [List.append_assoc]
    iterate 3 apply ContainsL.shift
    exact ContainsL.here3 _ _ _ _
  · refine ⟨(esc (clamp_title "Typical wasp nest removal cost ranges and what changes pricing." 155)).data,
      by decide, ?_⟩
    rw [cost_page_data_eq, metaSplitD, canonSplitD]
    simp only [List.append_assoc]
    iterate 3 apply ContainsL.shift
    exact ContainsL.here3 _ _ _ _
  · refine ⟨(esc (clamp_title "Clear steps for dealing with a wasp nest without making it worse." 155)).data,
      by decide, ?_⟩
    rw [howto_page_data_eq, metaSplitD, canonSplitD]
    simp only [List.append_assoc]
    iterate 3 apply ContainsL.shift
    exact ContainsL.here3 _ _ _ _
  · refine ⟨(esc (clamp_title ("Wasp nest removal and wasp control guide with local context for " ++
        cs.1 ++ ", " ++ cs.2 ++ ".") 155)).data, ?_, ?_⟩
    · have hall : ∀ cs ∈ CITIES,
          ((esc (clamp_title ("Wasp nest removal and wasp control guide with local context for " ++
            cs.1 ++ ", " ++ cs.2 ++ ".") 155)).data).length ≤ 155 := by decide
      exact hall cs hmem
    · rw [city_page_data_eq, metaSplitD, canonSplitD]
      simp only [List.append_assoc]
      iterate 3 apply ContainsL.shift
      exact ContainsL.here3 _ _ _ _

/-- Witness for C5 at the home page. -/
theorem pages_meta_description_le_155_witness :
    ∃ d : List Char, d.length ≤ 155 ∧
      ContainsL (homepage_html CONFIG CITIES).data
        ("<meta name=\"description\" content=\"".data ++ d ++ "\" />".data) :=
  pages_meta_description_le_155 (homepage_html CONFIG CITIES) (by simp [sitePages])

/-! ## Claim C9: the single-city run for Austin, TX -/

/-- C9: generating with the city list `[("Austin", "TX")]` produces exactly
one city page, written at `austin-tx/index.html` under the output root;
that page declares the canonical path `/austin-tx/`, and its body contains
the literal text `Austin, TX`. -/
theorem austin_city_page :
    generate CONFIG [("Austin", "TX")] =
      [("index.html", homepage_html CONFIG [("Austin", "TX")]),
       ("cost/index.html", cost_page_html CONFIG),
       ("how-to/index.html", howto_page_html CONFIG),
       ("austin-tx/index.html", city_page_html CONFIG "Austin" "TX"),
       ("robots.txt", robots_txt),
       ("sitemap.xml", sitemap_xml (mainUrls [("Austin", "TX")]))] ∧
    ContainsL (city_page_html CONFIG "Austin" "TX").data
      ("<link rel=\"canonical\" href=\"".data ++ "/austin-tx/".data ++ "\" />".data) ∧
    ContainsL (city_page_html CONFIG "Austin" "TX").data ("Austin, TX".data) := by
  refine ⟨?_, ?_, ?_⟩
  · have hs : city_state_slug "Austin" "TX" = "austin-tx" := by decide
    simp [generate, hs]
  · rw [city_page_data_eq, canonSplitD, styleSplitD,
      show (esc ("/" ++ city_state_slug "Austin" "TX" ++ "/")).data = "/austin-tx/".data
        from by decide]
    simp only [List.append_assoc]
    iterate 6 apply ContainsL.shift
    exact ContainsL.here3 _ _ _ _
  · rw [city_page_data_eq,
      show (esc ("Austin" : String)).data = "Austin".data from by decide,
      show (esc ("TX" : String)).data = "TX".data from by decide,
      show ("Austin, TX" : String).data = ("Austin".data ++ ", ".data) ++ "TX".data
        from by decide]
    simp only [List.append_assoc]
    iterate 68 apply ContainsL.shift
    exact ContainsL.here3 _ _ _ _

/-- Witness for C3 at a concrete input. -/
theorem slugify_wellformed_witness :
    slugify (slugify "Los Angeles") = slugify "Los Angeles" ∧
    (isSlugChar 'l' = true ∨ 'l' = '-') :=
  ⟨(slugify_idempotent_and_wellformed "Los Angeles").1,
   (slugify_idempotent_and_wellformed "Los Angeles").2.1 'l' (by decide)⟩
